import Mathlib

/-! Overview.

Shallow embedding of `src/app/balance_transformer.py` (the Balance
Transformer core of the multi-dataset-scalability-dashboard repository),
together with proofs settling the frozen claims C1..C10 about it.

Modelling conventions:
* Spreadsheet cell values (`None` / float NaN / int-float / str) become the
  inductive `Cell`.
* Python floats are modelled as `ℚ`; the numeric payloads exercised here are
  exact decimals, so no rounding behaviour is observable.
* `pandas.DataFrame(sheet.values)` pads ragged rows with NaN; `padRect`
  reproduces that.
* Python regular-expression uses are compiled to dedicated scanners, one per
  regex of the source, documented at their definitions.
-/

attribute [local semireducible] Rat.add Rat.mul Rat.inv Rat.sub Rat.ofScientific

namespace BalanceTransformerModel

/-- A spreadsheet cell value as produced by openpyxl / pandas:
`blank` is Python `None`, `nan` a float NaN, `num` an int/float, `str` text. -/
inductive Cell where
  | blank : Cell
  | nan : Cell
  | num : ℚ → Cell
  | str : String → Cell
  deriving DecidableEq, Repr

/-- Python `str.strip()` whitespace (and `\s` of `re`): space, tab, newline,
carriage return, vertical tab, form feed, and U+00A0 (no-break space). -/
def isSpacePy (c : Char) : Bool :=
  c.toNat = 32 || c.toNat = 9 || c.toNat = 10 || c.toNat = 13 ||
  c.toNat = 11 || c.toNat = 12 || c.toNat = 160

/-- ASCII letter test, the `[A-Za-z]` character class. -/
def isAsciiAlpha (c : Char) : Bool :=
  ('A' ≤ c && c ≤ 'Z') || ('a' ≤ c && c ≤ 'z')

/-- One step of `unicodedata.normalize("NFKD", ·)` followed by dropping
combining marks, restricted to the Latin repertoire this report uses
(accented vowels, n-tilde, u-diaeresis, in both cases). ASCII characters
are untouched, exactly as under NFKD. -/
def stripAccentsChar (c : Char) : Char :=
  if c.toNat < 128 then c
  else if c = 'á' ∨ c = 'à' ∨ c = 'ä' ∨ c = 'â' then 'a'
  else if c = 'é' ∨ c = 'è' ∨ c = 'ë' ∨ c = 'ê' then 'e'
  else if c = 'í' ∨ c = 'ì' ∨ c = 'ï' ∨ c = 'î' then 'i'
  else if c = 'ó' ∨ c = 'ò' ∨ c = 'ö' ∨ c = 'ô' then 'o'
  else if c = 'ú' ∨ c = 'ù' ∨ c = 'ü' ∨ c = 'û' then 'u'
  else if c = 'ñ' then 'n'
  else if c = 'Á' ∨ c = 'À' ∨ c = 'Ä' ∨ c = 'Â' then 'A'
  else if c = 'É' ∨ c = 'È' ∨ c = 'Ë' ∨ c = 'Ê' then 'E'
  else if c = 'Í' ∨ c = 'Ì' ∨ c = 'Ï' ∨ c = 'Î' then 'I'
  else if c = 'Ó' ∨ c = 'Ò' ∨ c = 'Ö' ∨ c = 'Ô' then 'O'
  else if c = 'Ú' ∨ c = 'Ù' ∨ c = 'Ü' ∨ c = 'Û' then 'U'
  else if c = 'Ñ' then 'N'
  else c

/-- Source `str.strip()`: drop leading and trailing whitespace. -/
def stripPy (l : List Char) : List Char :=
  ((l.dropWhile isSpacePy).reverse.dropWhile isSpacePy).reverse

/-- Helper for `collapseWs`: the flag records whether the previous
character was whitespace (so the run has already emitted its space). -/
def collapseWsAux : Bool → List Char → List Char
  | _, [] => []
  | inRun, c :: t =>
      if isSpacePy c then
        if inRun then collapseWsAux true t else ' ' :: collapseWsAux true t
      else c :: collapseWsAux false t

/-- Source `re.sub(r"\s+", " ", ·)`: collapse every whitespace run to one space. -/
def collapseWs (l : List Char) : List Char := collapseWsAux false l

/-- Source `"needle" in haystack` (Python substring containment) on char lists. -/
def containsSub (hay needle : List Char) : Bool :=
  match hay with
  | [] => needle.isEmpty
  | _ :: t => needle.isPrefixOf hay || containsSub t needle

/-- Python substring containment lifted to `String`. -/
def strContains (hay needle : String) : Bool :=
  containsSub hay.data needle.data

/-- Source `hay.startswith(needle)` on strings. -/
def startsWithPy (hay needle : String) : Bool :=
  needle.data.isPrefixOf hay.data

/-- Source `str(value)` for the cell values the transformer can see.  Only the
facts that matter downstream are observable: `str(None) = "None"`,
`str(nan) = "nan"`, strings go through unchanged, and a numeric cell's
rendering starts with a digit (or minus sign), which makes it inert for
every header/description/section matcher of the source.  Non-integral
numerics only ever occur in data positions, where `str` is never applied. -/
def pyStr : Cell → String
  | Cell.blank => "None"
  | Cell.nan => "nan"
  | Cell.num q =>
      if q.den = 1 then toString q.num
      else toString q.num ++ "." ++ toString q.den
  | Cell.str s => s

/-- Source `normalize_label` (balance_transformer.py:99-111): NFKD + drop combining
marks, uppercase, strip, unify dashes, `[;.:]` to spaces, dashes to spaces,
collapse whitespace, strip. -/
def normalize_label (value : Cell) : String :=
  match value with
  | Cell.blank => ""
  | v =>
      let cs0 := (pyStr v).data
      let cs1 := cs0.map stripAccentsChar
      let cs2 := cs1.map Char.toUpper
      let cs3 := stripPy cs2
      let cs4 := cs3.map (fun c => if c = '–' ∨ c = '—' then '-' else c)
      let cs5 := cs4.map (fun c => if c = ';' ∨ c = '.' ∨ c = ':' then ' ' else c)
      let cs6 := cs5.map (fun c => if c = '-' then ' ' else c)
      let cs7 := collapseWs cs6
      String.mk (stripPy cs7)

/-- Numeric value of a digit character. -/
def digitVal (c : Char) : ℕ := c.toNat - 48

/-- Value of a list of decimal digit characters (empty list counts as 0,
matching `int(m.group(1) or 0)` uses). -/
def digitsToNat (l : List Char) : ℕ :=
  l.foldl (fun acc c => 10 * acc + digitVal c) 0

/-- Python `float(text)` on the alphabet `parse_number` can feed it
(digits, `.` , `,` , `-`): an optional leading minus, then at least one
digit, at most one dot and nothing else; everything different (commas,
interior minus, empty, bare dot/minus) raises, i.e. returns `none`. -/
def pyFloat (l : List Char) : Option ℚ :=
  match l with
  | [] => none
  | _ =>
      let (neg, rest) :=
        match l with
        | '-' :: t => (true, t)
        | _ => (false, l)
      if rest.isEmpty then none
      else if rest.any (fun c => !(c.isDigit || c = '.')) then none
      else if (rest.filter (· = '.')).length > 1 then none
      else if !(rest.any Char.isDigit) then none
      else
        let intPart := rest.takeWhile (· ≠ '.')
        let fracPart := (rest.dropWhile (· ≠ '.')).drop 1
        let mag : ℚ :=
          (digitsToNat intPart : ℚ) + (digitsToNat fracPart : ℚ) / (10 : ℚ) ^ fracPart.length
        some (if neg then -mag else mag)

/-- Source `parse_number` (balance_transformer.py:114-137): total cell-to-float
conversion with locale-ambiguous separator disambiguation; every failure
path yields `0.0`. -/
def parse_number (raw : Cell) : ℚ :=
  match raw with
  | Cell.blank => 0
  | Cell.nan => 0
  | Cell.num q => q
  | Cell.str s =>
      let t0 := stripPy s.data
      let t1 := t0.filter (fun c => c.toNat ≠ 160)
      if t1.isEmpty then 0
      else
        let t2 := t1.filter (fun c => c ≠ ' ')
        let t3 := t2.filter (fun c => c.isDigit || c = ',' || c = '.' || c = '-')
        let commas := (t3.filter (· = ',')).length
        let dots := (t3.filter (· = '.')).length
        let t4 :=
          if commas = 1 ∧ dots = 0 then
            t3.map (fun c => if c = ',' then '.' else c)
          else if dots > 1 ∧ commas = 0 then
            t3.filter (· ≠ '.')
          else if dots = 1 ∧ commas = 1 then
            if t3.indexOf '.' < t3.indexOf ',' then
              (t3.filter (· ≠ '.')).map (fun c => if c = ',' then '.' else c)
            else
              t3.filter (· ≠ ',')
          else t3
        (pyFloat t4).getD 0

/-- Source `MONTH_ALIASES` (balance_transformer.py:15-42) in source (insertion)
order, which `canonical_header` traverses. -/
def MONTH_ALIASES : List (String × String) :=
  [("ene", "Ene"), ("enero", "Ene"), ("feb", "Feb"), ("febrero", "Feb"),
   ("mar", "Mar"), ("marzo", "Mar"), ("abr", "Abr"), ("abril", "Abr"),
   ("may", "May"), ("mayo", "May"), ("jun", "Jun"), ("junio", "Jun"),
   ("jul", "Jul"), ("julio", "Jul"), ("ago", "Ago"), ("agosto", "Ago"),
   ("set", "Set"), ("sep", "Set"), ("sept", "Set"), ("septiembre", "Set"),
   ("oct", "Oct"), ("octubre", "Oct"), ("nov", "Nov"), ("noviembre", "Nov"),
   ("dic", "Dic"), ("diciembre", "Dic")]

/-- Source `MONTH_ORDER` (config.py): the canonical 12-month axis. -/
def MONTH_ORDER : List String :=
  ["Ene", "Feb", "Mar", "Abr", "May", "Jun", "Jul", "Ago", "Set", "Oct", "Nov", "Dic"]

/-- Membership test in `MONTH_ALIASES.values()`. -/
def isMonthCanon (s : String) : Bool :=
  (MONTH_ALIASES.map Prod.snd).contains s

/-- Lowercase a string (ASCII case fold; inputs here are normalized ASCII). -/
def lowerStr (s : String) : String :=
  String.mk (s.data.map Char.toLower)

/-- Source `_canonical_header` (balance_transformer.py:140-151). -/
def canonical_header (value : Cell) : String :=
  match value with
  | Cell.blank => ""
  | v =>
      let norm := normalize_label v
      if startsWithPy norm "DESCRIPCION" then "descripcion"
      else if startsWithPy norm "ACUMULADO" then "acumulado"
      else
        match MONTH_ALIASES.find? (fun p => startsWithPy (lowerStr norm) p.1) with
        | some p => p.2
        | none => norm

/-- Source `\w` of Python `re` restricted to the character repertoire in play:
ASCII alphanumerics, underscore, and the accented Latin letters of
`stripAccentsChar`. -/
def isWordChar (c : Char) : Bool :=
  c.isAlphanum || c = '_' || (c.toNat ≥ 128 && stripAccentsChar c ≠ c)

/-- Match `(19|20)\d{2}` at the head of the list, returning the year value
and the remainder. -/
def yearTokenAt : List Char → Option (ℕ × List Char)
  | c0 :: c1 :: c2 :: c3 :: rest =>
      if ((c0 = '1' ∧ c1 = '9') ∨ (c0 = '2' ∧ c1 = '0')) ∧ c2.isDigit ∧ c3.isDigit then
        some (digitsToNat [c0, c1, c2, c3], rest)
      else none
  | _ => none

/-- Source `YEAR_REGEX.search`: leftmost `\b(19|20)\d{2}\b`.  `prev` is the
character before the current position, for the leading word boundary. -/
def findYearFrom : Option Char → List Char → Option ℕ
  | _, [] => none
  | prev, c :: t =>
      match yearTokenAt (c :: t) with
      | some (y, rest) =>
          if (match prev with | none => true | some p => !isWordChar p) &&
             (match rest with | [] => true | r :: _ => !isWordChar r) then some y
          else findYearFrom (some c) t
      | none => findYearFrom (some c) t

/-- Source `YEAR_REGEX.search` over a whole string (balance_transformer.py:154). -/
def findFirstYear (l : List Char) : Option ℕ := findYearFrom none l

/-- Source `re.sub(r"(?<=\d)(?=[A-Za-z])", " ", ·)`. -/
def insertSpacesDA : List Char → List Char
  | [] => []
  | [c] => [c]
  | a :: b :: t =>
      if a.isDigit && isAsciiAlpha b then a :: ' ' :: insertSpacesDA (b :: t)
      else a :: insertSpacesDA (b :: t)

/-- Source `re.sub(r"(?<=[A-Za-z])(?=\d)", " ", ·)`. -/
def insertSpacesAD : List Char → List Char
  | [] => []
  | [c] => [c]
  | a :: b :: t =>
      if isAsciiAlpha a && b.isDigit then a :: ' ' :: insertSpacesAD (b :: t)
      else a :: insertSpacesAD (b :: t)

/-- Source `_extract_year_from_title` (balance_transformer.py:157-163): split
letter/digit runs of the SHEET NAME apart, then take the first bounded
4-digit year. -/
def extract_year_from_title (sheet_name : String) : Option ℕ :=
  findFirstYear (insertSpacesAD (insertSpacesDA sheet_name.data))

/-- Search `R\s*-?\s*<d>\b` (resp. `V...` for `d`, first char `hd`) over the
normalized title. -/
def searchMarker (hd d : Char) : List Char → Bool
  | [] => false
  | c :: t =>
      (c = hd &&
        (let t1 := t.dropWhile isSpacePy
         let t2 := match t1 with
                   | '-' :: r => r.dropWhile isSpacePy
                   | _ => t1
         match t2 with
         | x :: rest => x = d && (match rest with | [] => true | r :: _ => !isWordChar r)
         | [] => false)) ||
      searchMarker hd d t

/-- Search `\(R\s*-?\s*<d>\)` case-insensitively over the raw sheet name. -/
def searchParenR (d : Char) : List Char → Bool
  | [] => false
  | c :: t =>
      (c = '(' &&
        (match t with
         | r :: t1 =>
             (r = 'R' || r = 'r') &&
             (let t2 := t1.dropWhile isSpacePy
              let t3 := match t2 with
                        | '-' :: u => u.dropWhile isSpacePy
                        | _ => t2
              match t3 with
              | x :: ')' :: _ => x = d
              | _ => false)
         | [] => false)) ||
      searchParenR d t

/-- One match of `REV\s*-?\s*(\d+)?` anchored at the head of the list:
`int(group(1) or 0)`. -/
def revMatchAt : List Char → Option ℕ
  | 'R' :: 'E' :: 'V' :: r =>
      let r1 := r.dropWhile isSpacePy
      let r2 := match r1 with
                | '-' :: u => u.dropWhile isSpacePy
                | _ => r1
      some (digitsToNat (r2.takeWhile Char.isDigit))
  | _ => none

/-- Source `re.finditer(r"REV\s*-?\s*(\d+)?", norm)`: the captured revision number
of every match.  The region a match consumes beyond its leading `R`
(namely `EV`, whitespace, a dash, digits) can never start another match,
so `finditer`'s non-overlapping scan coincides with trying every
position, which is what this structural recursion does. -/
def revValues : List Char → List ℕ
  | [] => []
  | c :: t =>
      match revMatchAt (c :: t) with
      | some n => n :: revValues t
      | none => revValues t

/-- Source `_score_version` (balance_transformer.py:179-195): priority, revision
number and label of a sheet title. -/
def score_version (sheet_name : String) : ℚ × ℕ × String :=
  let norm := (normalize_label (Cell.str sheet_name)).data
  if searchMarker 'R' '2' norm || searchParenR '2' sheet_name.data then (4, 0, "R2")
  else if searchMarker 'R' '1' norm || searchParenR '1' sheet_name.data then (3, 0, "R1")
  else if searchMarker 'V' '1' norm || containsSub norm "V1".data then (2, 0, "V1")
  else
    match revValues norm with
    | [] => (0, 0, "BASE")
    | v :: vs =>
        let n := vs.foldl max v
        (1 + (n : ℚ) / 1000, n, "REV" ++ (if n = 0 then "" else toString n))

/-- A section of the energy sheet: the `venta` / `compra` state machine. -/
inductive TableSection where
  | venta : TableSection
  | compra : TableSection
  deriving DecidableEq, Repr

/-- Source `_detect_section` (balance_transformer.py:205-212). -/
def detect_section (label : String) : Option TableSection :=
  if label.isEmpty then none
  else if strContains label "VENTA DE ENERGIA" || startsWithPy label "VENTA ENERGIA" ||
          startsWithPy label "VENTA DE ENER" then some TableSection.venta
  else if strContains label "COMPRA DE ENERGIA" || startsWithPy label "COMPRA ENER" ||
          startsWithPy label "COMPRA DE ENER" then some TableSection.compra
  else none

/-- Source `_match_row` (balance_transformer.py:198-202). -/
def match_row (targets : List String) (candidate : String) : Bool :=
  targets.any (fun t => strContains candidate t)

/-- Source `_is_blank_row` (balance_transformer.py:215-219). -/
def is_blank_row (row : List Cell) : Bool :=
  row.all fun c =>
    match c with
    | Cell.blank => true
    | Cell.nan => true
    | Cell.num _ => false
    | Cell.str s => (stripPy s.data).isEmpty

/-- Case-insensitive literal matcher: consume `lit` from the head of `l`. -/
def skipLit : List Char → List Char → Option (List Char)
  | [], l => some l
  | _ :: _, [] => none
  | p :: ps, c :: cs => if c.toLower = p.toLower then skipLit ps cs else none

/-- Source `\s+`: one or more whitespace characters. -/
def skipWs1 (l : List Char) : Option (List Char) :=
  match l with
  | c :: cs => if isSpacePy c then some (cs.dropWhile isSpacePy) else none
  | [] => none

/-- Consume `BALANCE\s+DE\s+ENERG[ÍI]A\s+EN\s+MWH` (case-insensitively)
from the head of the list. -/
def titleHeadAt (l : List Char) : Option (List Char) := do
  let r1 ← skipLit "BALANCE".data l
  let r2 ← skipWs1 r1
  let r3 ← skipLit "DE".data r2
  let r4 ← skipWs1 r3
  let r5 ← skipLit "ENERG".data r4
  let r6 ← match r5 with
           | c :: cs => if c = 'Í' ∨ c = 'í' ∨ c = 'I' ∨ c = 'i' then some cs else none
           | [] => none
  let r7 ← skipLit "A".data r6
  let r8 ← skipWs1 r7
  let r9 ← skipLit "EN".data r8
  let r10 ← skipWs1 r9
  skipLit "MWH".data r10

/-- Source `.*?(19|20)\d{2}`: the leftmost year token reachable without crossing a
newline (`.` does not match `\n`); returns the year and the tail after it. -/
def yearAfter : List Char → Option (ℕ × List Char)
  | [] => none
  | c :: t =>
      if c = '\n' then none
      else
        match yearTokenAt (c :: t) with
        | some (y, rest) => some (y, rest)
        | none => yearAfter t

/-- Full title regex matched starting exactly here; returns `group(0)`. -/
def titleGroupAt (l : List Char) : Option (List Char) :=
  match titleHeadAt l with
  | none => none
  | some r =>
      match yearAfter r with
      | none => none
      | some (_, rest) => some (l.take (l.length - rest.length))

/-- Source `regex.search` for the title pattern of balance_transformer.py:167/223:
the leftmost match's `group(0)`. -/
def titleSearch : List Char → Option (List Char)
  | [] => none
  | c :: t =>
      match titleGroupAt (c :: t) with
      | some g => some g
      | none => titleSearch t

/-- Source `_find_title_year` (balance_transformer.py:166-176): scan every string
cell row-major; on the first title match whose `group(0)` contains a
bounded year, return that year. -/
def find_title_year (grid : List (List Cell)) : Option ℕ :=
  (grid.flatMap (fun row => row.filterMap (fun c =>
      match c with
      | Cell.str s =>
          match titleSearch s.data with
          | some g => findFirstYear g
          | none => none
      | _ => none))).head?

/-- Does this cell hold a string matching the title regex with the expected
bounded year in the full cell text? -/
def cellEqualYearTitle (c : Cell) (expected : ℕ) : Bool :=
  match c with
  | Cell.str s => (titleSearch s.data).isSome && findFirstYear s.data = some expected
  | _ => false

/-- Does this cell hold a string matching the title regex at all? -/
def cellAnyTitle (c : Cell) : Bool :=
  match c with
  | Cell.str s => (titleSearch s.data).isSome
  | _ => false

/-- Source `_locate_title_row` (balance_transformer.py:222-233): first row whose
title cell carries the expected year, else the first row with any title
cell. -/
def locate_title_row (df : List (List Cell)) (expected : ℕ) : Option ℕ :=
  match df.findIdx? (fun row => row.any (fun c => cellEqualYearTitle c expected)) with
  | some i => some i
  | none => df.findIdx? (fun row => row.any cellAnyTitle)

/-- Source `_TARGET_ROWS_ENERGY` (balance_transformer.py:83-89), in dict order. -/
def TARGET_ROWS_ENERGY : List (String × List String) :=
  [("regulados", ["A EMP. DISTRIBUIDORAS", "A EMP DISTRIBUIDORAS", "MERCADO REGULADO", "REGULADOS"]),
   ("libres", ["A CLIENTES LIBRES", "MERCADO LIBRE", "LIBRES"]),
   ("coes", ["COES", "SPOT", "COES SPOT", "COES-SPOT", "MERCADO SPOT"]),
   ("servicios_aux", ["SERVICIOS AUXILIARES", "CONSUMO PROPIO DE CENTRALES", "SSAA"]),
   ("perdidas", ["PERDIDAS SISTEMAS TRANSMISION", "PERDIDAS SISTEMAS TRANSMISION", "PERDIDAS"])]

/-- Source `_TARGET_ROWS_SALES` (balance_transformer.py:91-96), in dict order. -/
def TARGET_ROWS_SALES : List (String × List String) :=
  [("regulados", ["REGULADOS", "MERCADO REGULADO", "A EMP. DISTRIBUIDORAS"]),
   ("libres", ["LIBRES", "MERCADO LIBRE", "A CLIENTES LIBRES"]),
   ("coes_spot", ["COES", "SPOT", "COES-SPOT", "COES SPOT"]),
   ("otros", ["OTROS"])]

/-- Alias patterns of a metric key in a targets table. -/
def targetsOf (targets : List (String × List String)) (k : String) : List String :=
  ((targets.find? (fun p => p.1 = k)).map Prod.snd).getD []

/-- Lookup in an insertion-ordered string-keyed map (a Python dict). -/
def mget (m : List (String × List ℚ)) (k : String) : Option (List ℚ) :=
  (m.find? (fun p => p.1 = k)).map Prod.snd

/-- Dict update: replace in place when the key exists (keys are unique, as
in a Python dict), append otherwise. -/
def mset : List (String × List ℚ) → String → List ℚ → List (String × List ℚ)
  | [], k, v => [(k, v)]
  | p :: t, k, v => if p.1 = k then (k, v) :: t else p :: mset t k v

/-- Dict key membership. -/
def mhas (m : List (String × List ℚ)) (k : String) : Bool :=
  m.any (fun p => p.1 = k)

/-- Source `pd.DataFrame(sheet.values)`: pad ragged rows to a rectangle with NaN. -/
def padRect (g : List (List Cell)) : List (List Cell) :=
  let w := g.foldl (fun acc r => max acc r.length) 0
  g.map (fun r => r ++ List.replicate (w - r.length) Cell.nan)

/-- Source `raw_value not in (None, "", "-") and not (isinstance(raw_value, float)
and pd.isna(raw_value))` (balance_transformer.py:385). -/
def rawPresent (c : Cell) : Bool :=
  match c with
  | Cell.blank => false
  | Cell.nan => false
  | Cell.num _ => true
  | Cell.str s => s ≠ "" && s ≠ "-"

/-- The 12-entry-or-shorter zero series `[0.0 for _ in month_columns]`. -/
def zerosQ (n : ℕ) : List ℚ := List.replicate n 0

/-- Parsed month values of one data row at the given column indices. -/
def rowVals (row : List Cell) (cols : List ℕ) : List ℚ :=
  cols.map (fun ci => parse_number (row.getD ci Cell.blank))

/-- The per-cell presence condition of balance_transformer.py:385-386: the
raw cell at column `ci` is non-blank/non-dash/non-NaN AND parses to a
nonzero value. -/
def colCond (row : List Cell) (ci : ℕ) : Bool :=
  rawPresent (row.getD ci Cell.blank) &&
  decide (parse_number (row.getD ci Cell.blank) ≠ 0)

/-- One row's contribution to the month-presence flags
(balance_transformer.py:381-386). -/
def updPresence (row : List Cell) (cols : List ℕ) (pres : List Bool) : List Bool :=
  (cols.zip pres).map (fun p => p.2 || colCond row p.1)

/-- The data rows below a header: everything until the first blank row
(balance_transformer.py:374-377). -/
def tableRows (df : List (List Cell)) (headerIdx : ℕ) : List (List Cell) :=
  (df.drop (headerIdx + 1)).takeWhile (fun r => !is_blank_row r)

/-- The `data_rows` loop of `_extract_table` (balance_transformer.py:372-387):
normalized descriptions with parsed month values, plus presence flags.
(The raw row stored as the tuple's third component in the source is never
read downstream and is omitted.) -/
def buildData (rows : List (List Cell)) (descCol : ℕ) (cols : List ℕ) :
    List (String × List ℚ) × List Bool :=
  rows.foldl
    (fun acc row =>
      (acc.1 ++ [(normalize_label (row.getD descCol (Cell.str "")), rowVals row cols)],
       updPresence row cols acc.2))
    ([], List.replicate cols.length false)

/-- Per-key zero-seeded series dict `{k: [0.0 ...] for k in targets}`. -/
def seedSeries (targets : List (String × List String)) (n : ℕ) : List (String × List ℚ) :=
  targets.map (fun p => (p.1, zerosQ n))

/-- Source `all(val == 0 for val in l)`. -/
def allZeroQ (l : List ℚ) : Bool := l.all (fun v => decide (v = 0))

/-- State of the energy-table section scan (balance_transformer.py:401-404). -/
structure EnergyScan where
  series : List (String × List ℚ)
  currentSection : Option TableSection
  savPref : Option (List ℚ)
  savFall : Option (List ℚ)
  fallbackVenta : List (String × List ℚ)
  deriving DecidableEq, Repr

/-- One data row of the energy scan (balance_transformer.py:405-437):
section banners switch state; before any banner regulated/free/COES
matches are recorded as residual fallback; inside the Sale section they
fill the series; losses and ancillary services match unscoped. -/
def energyScanStep (n : ℕ) (st : EnergyScan) (dr : String × List ℚ) : EnergyScan :=
  let desc := dr.1
  let values := dr.2
  match detect_section desc with
  | some s => { st with currentSection := some s }
  | none =>
      if desc = "" then st
      else
        let st1 :=
          if st.currentSection = none then
            let f0 := st.fallbackVenta
            let f1 := if match_row (targetsOf TARGET_ROWS_ENERGY "regulados") desc then
                        mset f0 "regulados" values else f0
            let f2 := if match_row (targetsOf TARGET_ROWS_ENERGY "libres") desc then
                        mset f1 "libres" values else f1
            let f3 := if match_row (targetsOf TARGET_ROWS_ENERGY "coes") desc then
                        mset f2 "coes" values else f2
            { st with fallbackVenta := f3 }
          else st
        let st2 :=
          if st1.currentSection = some TableSection.venta then
            let s0 := st1.series
            let s1 := if mget s0 "regulados" = some (zerosQ n) ∧
                         match_row (targetsOf TARGET_ROWS_ENERGY "regulados") desc then
                        mset s0 "regulados" values else s0
            let s2 := if mget s1 "libres" = some (zerosQ n) ∧
                         match_row (targetsOf TARGET_ROWS_ENERGY "libres") desc then
                        mset s1 "libres" values else s1
            let s3 := if mget s2 "coes" = some (zerosQ n) ∧
                         match_row (targetsOf TARGET_ROWS_ENERGY "coes") desc then
                        mset s2 "coes" values else s2
            { st1 with series := s3 }
          else st1
        let st3 :=
          if match_row (targetsOf TARGET_ROWS_ENERGY "perdidas") desc then
            if mget st2.series "perdidas" = some (zerosQ n) then
              { st2 with series := mset st2.series "perdidas" values }
            else st2
          else st2
        if match_row ["SERVICIOS AUXILIARES"] desc then
          { st3 with savPref := some (st3.savPref.getD values) }
        else if match_row ["CONSUMO PROPIO DE CENTRALES", "CONSUMO PROPIO"] desc then
          { st3 with savFall := some (st3.savFall.getD values) }
        else st3

/-- The whole energy section scan over the data rows. -/
def energyScan (n : ℕ) (rows : List (String × List ℚ)) : EnergyScan :=
  rows.foldl (energyScanStep n) ⟨seedSeries TARGET_ROWS_ENERGY n, none, none, none, []⟩

/-- The ancillary-services fixup (balance_transformer.py:439-442): the
literal SERVICIOS AUXILIARES row wins over the consumo-propio fallback. -/
def applyServicios (st : EnergyScan) : List (String × List ℚ) :=
  match st.savPref with
  | some v => mset st.series "servicios_aux" v
  | none =>
      match st.savFall with
      | some v => mset st.series "servicios_aux" v
      | none => st.series

/-- One metric of the residual-fallback loop (balance_transformer.py:
444-446): replace the series only when it is still all-zero and a
pre-banner match was recorded. -/
def fallbackStep (fb : List (String × List ℚ)) (s : List (String × List ℚ))
    (k : String) : List (String × List ℚ) :=
  match mget s k with
  | some v =>
      if allZeroQ v ∧ mhas fb k then mset s k ((mget fb k).getD v) else s
  | none => s

/-- After-scan fixups (balance_transformer.py:439-446): ancillary services
prefers the literal row over the consumo-propio fallback; regulated, free
and COES fall back to a pre-banner residual match only when the scoped
pass left them all-zero. -/
def finalizeEnergy (st : EnergyScan) : List (String × List ℚ) :=
  ["regulados", "libres", "coes"].foldl (fallbackStep st.fallbackVenta)
    (applyServicios st)

/-- Per-metric missing-row warnings (balance_transformer.py:448-450). -/
def seriesWarnings (targets : List (String × List String))
    (s : List (String × List ℚ)) : List String :=
  targets.filterMap (fun p =>
    match mget s p.1 with
    | some v =>
        if allZeroQ v then some ("No se encontró fila para '" ++ p.1 ++ "'.") else none
    | none => none)

/-- The monetary branch (balance_transformer.py:393-399): unscoped, first
match per metric wins, a miss appends a warning. -/
def salesExtract (n : ℕ) (rows : List (String × List ℚ)) :
    List (String × List ℚ) × List String :=
  TARGET_ROWS_SALES.foldl
    (fun acc p =>
      match rows.find? (fun dr => match_row p.2 dr.1) with
      | some dr => (mset acc.1 p.1 dr.2, acc.2)
      | none => (acc.1, acc.2 ++ ["No se encontró fila para '" ++ p.1 ++ "'."]))
    (seedSeries TARGET_ROWS_SALES n, [])

/-- Source `present or any(series[m][midx] != 0 for m in targets)`
(balance_transformer.py:454). -/
def isDataCol (series : List (String × List ℚ)) (pres : List Bool) (midx : ℕ) : Bool :=
  pres.getD midx false || series.any (fun p => decide (p.2.getD midx 0 ≠ 0))

/-- Source `last_with_data` (balance_transformer.py:452-455): the last month-column
index showing presence or a nonzero extracted value (`none` for -1). -/
def lastWithData (series : List (String × List ℚ)) (pres : List Bool) : Option ℕ :=
  (List.range pres.length).foldl
    (fun acc midx => if isDataCol series pres midx then some midx else acc) none

/-- Accumulator of the month-alignment loop
(balance_transformer.py:461-476). -/
structure AlignAcc where
  months : List String
  pres : List Bool
  series : List (String × List ℚ)
  warns : List String
  deriving DecidableEq, Repr

/-- One canonical month of the alignment loop: copy from the active window
when the month is present there, else zero-fill with a warning. -/
def alignStep (activeNames : List String) (activePres : List Bool)
    (series : List (String × List ℚ)) (acc : AlignAcc) (m : String) : AlignAcc :=
  if activeNames.contains m then
    let idx := activeNames.indexOf m
    { months := acc.months ++ [m],
      pres := acc.pres ++ [activePres.getD idx false],
      series := acc.series.map (fun p => (p.1, p.2 ++ [((mget series p.1).getD []).getD idx 0])),
      warns := acc.warns }
  else
    { months := acc.months ++ [m],
      pres := acc.pres ++ [false],
      series := acc.series.map (fun p => (p.1, p.2 ++ [(0 : ℚ)])),
      warns := acc.warns ++ ["Mes '" ++ m ++ "' no encontrado en la tabla. Se usa 0."] }

/-- The truncated `active_month_names` (balance_transformer.py:457-459). -/
def activeNamesOf (colNames : List String) (presence : List Bool)
    (series : List (String × List ℚ)) : List String :=
  match lastWithData series presence with
  | none => colNames
  | some k => colNames.take (k + 1)

/-- The truncated `active_presence` (balance_transformer.py:458). -/
def activePresOf (presence : List Bool) (series : List (String × List ℚ)) :
    List Bool :=
  match lastWithData series presence with
  | none => presence
  | some k => presence.take (k + 1)

/-- The value the alignment loop appends for metric `k` at canonical month
`m` (balance_transformer.py:466-476). -/
def alignValue (activeNames : List String) (series : List (String × List ℚ))
    (k : String) (m : String) : ℚ :=
  if activeNames.contains m then
    ((mget series k).getD []).getD (activeNames.indexOf m) 0
  else 0

/-- The presence flag the alignment loop appends at canonical month `m`. -/
def alignPres (activeNames : List String) (activePres : List Bool) (m : String) :
    Bool :=
  if activeNames.contains m then activePres.getD (activeNames.indexOf m) false
  else false

/-- The truncation-and-alignment phase of `_extract_table`
(balance_transformer.py:452-476), as a standalone function: truncate to the
last data column, then align onto the canonical 12-month axis. -/
def truncAlign (colNames : List String) (presence : List Bool)
    (series : List (String × List ℚ)) (keys : List String) : AlignAcc :=
  MONTH_ORDER.foldl
    (alignStep (activeNamesOf colNames presence series)
      (activePresOf presence series) series)
    ⟨[], [], keys.map (fun k => (k, [])), []⟩

/-- Source `_extract_table` (balance_transformer.py:365-480): returns the aligned
months, presence flags, per-metric series dict and warnings, or the
no-month-columns error. -/
def extract_table (df : List (List Cell)) (headerIdx : ℕ) (isSales : Bool) :
    Except String (List String × List Bool × List (String × List ℚ) × List String) :=
  let rawHeaders := (df.getD headerIdx []).map canonical_header
  let descCol := (rawHeaders.findIdx? (fun v => v = "descripcion")).getD 0
  let monthCols := rawHeaders.enum.filter (fun p => isMonthCanon p.2)
  if monthCols.isEmpty then Except.error "No se encontraron columnas de meses."
  else
    let colIdxs := monthCols.map Prod.fst
    let colNames := monthCols.map Prod.snd
    let n := monthCols.length
    let bd := buildData (tableRows df headerIdx) descCol colIdxs
    let dataRows := bd.1
    let presence := bd.2
    let sw :=
      if isSales then salesExtract n dataRows
      else
        let fin := finalizeEnergy (energyScan n dataRows)
        (fin, seriesWarnings TARGET_ROWS_ENERGY fin)
    let keys := if isSales then TARGET_ROWS_SALES.map Prod.fst
                else TARGET_ROWS_ENERGY.map Prod.fst
    let acc := truncAlign colNames presence sw.1 keys
    Except.ok (acc.months, acc.pres, acc.series, sw.2 ++ acc.warns)

/-- Source `BalanceEnergySeries` (balance_transformer.py:45-51). -/
structure BalanceEnergySeries where
  regulados : List ℚ
  libres : List ℚ
  coes : List ℚ
  servicios_aux : List ℚ
  perdidas : List ℚ
  deriving DecidableEq, Repr

/-- Source `BalanceSalesSeries` (balance_transformer.py:54-59). -/
structure BalanceSalesSeries where
  regulados : List ℚ
  libres : List ℚ
  coes_spot : List ℚ
  otros : List ℚ
  deriving DecidableEq, Repr

/-- Source `BalanceParseResult` (balance_transformer.py:62-72). -/
structure BalanceParseResult where
  year : ℕ
  months : List String
  observed_months : List String
  energy : BalanceEnergySeries
  sales : Option BalanceSalesSeries
  warnings : List String
  source_id : String
  sheet_name : String
  last_month : Option String
  deriving DecidableEq, Repr

/-- Source `_missing_rows_report` (balance_transformer.py:482-495): `any(series)`
is Python float-list truthiness, i.e. some entry nonzero. -/
def missing_rows_report (es : BalanceEnergySeries) : List String :=
  (if es.regulados.any (fun v => decide (v ≠ 0)) then []
   else ["No se encontró fila para 'A emp. Distribuidoras'"]) ++
  (if es.libres.any (fun v => decide (v ≠ 0)) then []
   else ["No se encontró fila para 'A clientes Libres'"]) ++
  (if es.coes.any (fun v => decide (v ≠ 0)) then []
   else ["No se encontró fila para 'COES'"]) ++
  (if es.perdidas.any (fun v => decide (v ≠ 0)) then []
   else ["No se encontró fila para 'Pérdidas'"]) ++
  (if es.servicios_aux.any (fun v => decide (v ≠ 0)) then []
   else ["No se encontró fila para 'Servicios auxiliares'"])

/-- The up-to-3-rows-above context of a header (balance_transformer.py:
305-309): normalized string cells, row-major, joined with spaces. -/
def contextText (df : List (List Cell)) (h : ℕ) : String :=
  String.intercalate " "
    (((df.drop (h - 3)).take (h - (h - 3))).flatMap (fun row =>
      row.filterMap (fun c =>
        match c with
        | Cell.str s => some (normalize_label (Cell.str s))
        | _ => none)))

/-- Header-row detection (balance_transformer.py:285-289): a row whose
canonical headers include `descripcion` and at least 3 month codes. -/
def headerIndices (df : List (List Cell)) : List ℕ :=
  (df.enum.filter (fun p =>
    let normalized := p.2.map canonical_header
    normalized.contains "descripcion" &&
    decide ((normalized.filter isMonthCanon).length ≥ 3))).map Prod.fst

/-- The monetary-table classifier (balance_transformer.py:310). -/
def isSalesHeader (df : List (List Cell)) (h : ℕ) : Bool :=
  ["MILLONES", "SOLES", "S/", "MONETARI"].any
    (fun k => strContains (contextText df h) k)

/-- Folded state of `_parse_sheet`'s header loop
(balance_transformer.py:297-302). -/
structure ParseState where
  energy : Option BalanceEnergySeries
  sales : Option BalanceSalesSeries
  warnings : List String
  observed : List String
  lastMonth : Option String
  energyMonths : List String
  deriving DecidableEq, Repr

/-- One header row of `_parse_sheet`'s loop (balance_transformer.py:
304-340): classify, extract (errors skipped), keep the first energy table
and the first monetary table. -/
def parseStep (df : List (List Cell)) (st : ParseState) (h : ℕ) : ParseState :=
  let isSales := isSalesHeader df h
  match extract_table df h isSales with
  | Except.error _ => st
  | Except.ok (months, pres, parsed, tWarns) =>
      let st0 := { st with warnings := st.warnings ++ tWarns }
      if isSales ∧ st0.sales = none then
        { st0 with
          sales := some
            ⟨(mget parsed "regulados").getD (zerosQ months.length),
             (mget parsed "libres").getD (zerosQ months.length),
             (mget parsed "coes_spot").getD (zerosQ months.length),
             (mget parsed "otros").getD (zerosQ months.length)⟩ }
      else if ¬ isSales ∧ st0.energy = none then
        let observed := (months.zip pres).filterMap
          (fun p => if p.2 then some p.1 else none)
        { st0 with
          energy := some
            ⟨(mget parsed "regulados").getD (zerosQ months.length),
             (mget parsed "libres").getD (zerosQ months.length),
             (mget parsed "coes").getD (zerosQ months.length),
             (mget parsed "servicios_aux").getD (zerosQ months.length),
             (mget parsed "perdidas").getD (zerosQ months.length)⟩,
          energyMonths := months,
          observed := observed,
          lastMonth :=
            match observed.getLast? with
            | some x => some x
            | none => st0.lastMonth }
      else st0

/-- The header loop of `_parse_sheet` from its initial state. -/
def parseFold (df : List (List Cell)) (hs : List ℕ) : ParseState :=
  hs.foldl (parseStep df) ⟨none, none, [], [], none, MONTH_ORDER⟩

/-- Invariant carried by the header loop of `_parse_sheet`: the energy
months stay canonical, the observed window is a subsequence of the
canonical months, nothing is observed before an energy table exists, the
last month tracks the end of the observed window, and stored series have
12 entries. -/
def ParseInv (st : ParseState) : Prop :=
  st.energyMonths = MONTH_ORDER ∧
  st.observed.Sublist MONTH_ORDER ∧
  (st.energy = none → st.observed = [] ∧ st.lastMonth = none) ∧
  (st.observed ≠ [] → st.lastMonth = st.observed.getLast?) ∧
  (∀ es, st.energy = some es →
    es.regulados.length = 12 ∧ es.libres.length = 12 ∧ es.coes.length = 12 ∧
    es.servicios_aux.length = 12 ∧ es.perdidas.length = 12) ∧
  (∀ ss, st.sales = some ss →
    ss.regulados.length = 12 ∧ ss.libres.length = 12 ∧
    ss.coes_spot.length = 12 ∧ ss.otros.length = 12)

/-- The header rows `_parse_sheet` iterates: those following the title row
when that filter leaves any, otherwise all of them
(balance_transformer.py:294-295). -/
def headersForYear (df : List (List Cell)) (year : ℕ) : List ℕ :=
  let hs0 := headerIndices df
  match locate_title_row df year with
  | none => hs0
  | some t =>
      let f := hs0.filter (fun i => decide (i > t))
      if f.isEmpty then hs0 else f

/-- Source `_parse_sheet` (balance_transformer.py:281-363). -/
def parse_sheet (grid : List (List Cell)) (year : ℕ) (sheetName : String)
    (sourceId : String) : Except String BalanceParseResult :=
  let df := padRect grid
  if (headerIndices df).isEmpty then
    Except.error "No se encontró fila de encabezados con 'DESCRIPCIÓN' y meses."
  else
    let st := parseFold df (headersForYear df year)
    match st.energy with
    | none =>
        Except.error ("No se encontró tabla de energía para el año " ++ toString year ++
          " en la hoja " ++ sheetName)
    | some es =>
        let observedFinal :=
          if st.observed.isEmpty then
            MONTH_ORDER.filter (fun m => st.energyMonths.contains m)
          else st.observed
        let lastFinal :=
          if st.observed.isEmpty then
            match (MONTH_ORDER.filter (fun m => st.energyMonths.contains m)).getLast? with
            | some x => some x
            | none => st.lastMonth
          else st.lastMonth
        Except.ok
          ⟨year, MONTH_ORDER,
           (if observedFinal.isEmpty then MONTH_ORDER else observedFinal),
           es, st.sales,
           st.warnings ++ missing_rows_report es,
           sourceId, sheetName, lastFinal⟩

/-- A workbook sheet: a title plus the cell grid `sheet.values` yields. -/
structure SheetData where
  title : String
  grid : List (List Cell)
  deriving DecidableEq, Repr

/-- Source `_SheetCandidate` (balance_transformer.py:75-81). -/
structure SheetCandidate where
  year : ℕ
  sheet_name : String
  version_priority : ℚ
  revision_number : ℕ
  grid : List (List Cell)
  deriving DecidableEq, Repr

/-- Source `BalanceTransformer._is_better` (balance_transformer.py:275-279). -/
def is_better (candidate current : SheetCandidate) : Bool :=
  if candidate.version_priority ≠ current.version_priority then
    decide (candidate.version_priority > current.version_priority)
  else decide (candidate.revision_number ≥ current.revision_number)

/-- Lookup in the year-keyed candidate dict. -/
def cmget (m : List (ℕ × SheetCandidate)) (y : ℕ) : Option SheetCandidate :=
  (m.find? (fun p => p.1 = y)).map Prod.snd

/-- Update of the year-keyed candidate dict (in-place for existing keys,
appended otherwise — Python dict insertion order). -/
def cmset : List (ℕ × SheetCandidate) → ℕ → SheetCandidate →
    List (ℕ × SheetCandidate)
  | [], y, c => [(y, c)]
  | p :: t, y, c => if p.1 = y then (y, c) :: t else p :: cmset t y c

/-- One sheet of `BalanceTransformer._select_candidates`
(balance_transformer.py:254-272): the year comes from
`_extract_year_from_title(sheet.title)`, i.e. from the sheet NAME;
nameless-year sheets are skipped; a better-scoring candidate replaces the
incumbent of its year. -/
def selectStep (sel : List (ℕ × SheetCandidate)) (sheet : SheetData) :
    List (ℕ × SheetCandidate) :=
  match extract_year_from_title sheet.title with
  | none => sel
  | some year =>
      let sv := score_version sheet.title
      let cand : SheetCandidate := ⟨year, sheet.title, sv.1, sv.2.1, sheet.grid⟩
      match cmget sel year with
      | none => cmset sel year cand
      | some existing =>
          if is_better cand existing then cmset sel year cand else sel

/-- Source `BalanceTransformer._select_candidates` (balance_transformer.py:
252-273). -/
def select_candidates (wb : List SheetData) : List (ℕ × SheetCandidate) :=
  wb.foldl selectStep []

/-- Source `DEFAULT_SOURCE_ID` (config.py). -/
def DEFAULT_SOURCE_ID : String := "balance-xlsx"

/-- Stable ascending insertion by year. -/
def insertByYear (r : BalanceParseResult) :
    List BalanceParseResult → List BalanceParseResult
  | [] => [r]
  | x :: t => if r.year < x.year then r :: x :: t else x :: insertByYear r t

/-- Source `results.sort(key=lambda r: r.year)`. -/
def sortByYear (l : List BalanceParseResult) : List BalanceParseResult :=
  l.foldr insertByYear []

/-- The `for year, candidate in candidates.items()` result loop of
`transform`: append each parse result, propagating the first raised
error. -/
def mapE (f : α → Except String β) : List α → Except String (List β)
  | [] => Except.ok []
  | x :: t =>
      match f x with
      | Except.error e => Except.error e
      | Except.ok y =>
          match mapE f t with
          | Except.error e => Except.error e
          | Except.ok ys => Except.ok (y :: ys)

/-- Source `BalanceTransformer.transform` (balance_transformer.py:241-250): parse
every selected candidate (exceptions from `_parse_sheet` PROPAGATE — there
is no per-year catch), raise the hard error when no candidate existed,
sort ascending by year. -/
def transform (wb : List SheetData) (sourceId : String := DEFAULT_SOURCE_ID) :
    Except String (List BalanceParseResult) :=
  let cands := select_candidates wb
  match mapE (fun p => parse_sheet p.2.grid p.1 p.2.sheet_name sourceId) cands with
  | Except.error e => Except.error e
  | Except.ok results =>
      if results.isEmpty then
        Except.error "No se encontró un título 'BALANCE DE ENERGÍA EN MWh - AÑO YYYY' en el Excel."
      else Except.ok (sortByYear results)

/-- Shorthand for a text cell. -/
def tc (s : String) : Cell := Cell.str s

/-- Shorthand for a numeric cell. -/
def nc (q : ℚ) : Cell := Cell.num q

/-- Scenario A workbook (spec §8 / tests): one year sheet with
January/February data and a blank March. -/
def wbA : List SheetData :=
  [⟨"Balance 2025",
    [[tc "BALANCE DE ENERGÍA EN MWh - AÑO 2025"],
     [],
     [],
     [tc "DESCRIPCIÓN", tc "Ene", tc "Feb", tc "Mar", tc "Acumulado"],
     [tc "A emp. Distribuidoras", nc 1000, nc 1100, Cell.blank, nc 2100],
     [tc "A clientes Libres", nc 500, nc 600, Cell.blank, nc 1100],
     [tc "COES", nc 200, nc 250, Cell.blank, nc 450],
     [tc "Consumo propio de centrales", nc 50, nc 55, Cell.blank, nc 105],
     [tc "Pérdidas Sistemas Transmisión", nc 20, nc 25, Cell.blank, nc 45]]⟩]

/-- Scenario B workbook (spec §8): three sheets naming the same year with
increasing revision markers; the grids are irrelevant to selection. -/
def wbB : List SheetData :=
  [⟨"2018", []⟩, ⟨"2018-R1", []⟩, ⟨"2018-R2 (LDS)", []⟩]

/-- A fully parseable single-year grid (the 2024 sheet of the test
workbook). -/
def grid2024 : List (List Cell) :=
  [[tc "BALANCE DE ENERGÍA EN MWh - AÑO 2024"],
   [tc "DESCRIPCIÓN", tc "Ene", tc "Feb", tc "Mar"],
   [tc "A emp. Distribuidoras", nc 900, nc 950, nc 1000],
   [tc "A clientes Libres", nc 400, nc 420, nc 430],
   [tc "COES", nc 150, nc 155, nc 160],
   [tc "Consumo propio de centrales", nc 30, nc 32, nc 33],
   [tc "Pérdidas Sistemas Transmisión", nc 15, nc 14, nc 16]]

/-- A year-titled grid with no header row at all: its `_parse_sheet` raises
the no-header error. -/
def gridNoHeader : List (List Cell) :=
  [[tc "BALANCE DE ENERGÍA EN MWh - AÑO 2023"]]

/-- C1 workbook: one parseable year (2024) next to one year whose sheet has
no header row (2023). -/
def wbC1 : List SheetData :=
  [⟨"2024", grid2024⟩, ⟨"2023", gridNoHeader⟩]

/-- The same workbook with only the parseable year. -/
def wbC1good : List SheetData := [⟨"2024", grid2024⟩]

/-- C2 workbook: data in January and March but a blank February, producing
an interior gap in the observed window. -/
def wbC2 : List SheetData :=
  [⟨"2024",
    [[tc "BALANCE DE ENERGÍA EN MWh - AÑO 2024"],
     [tc "DESCRIPCIÓN", tc "Ene", tc "Feb", tc "Mar"],
     [tc "COES", nc 5, Cell.blank, nc 7]]⟩]

/-- C3 workbook: a sheet whose NAME has no year but whose cells carry a
fully valid year title and energy table. -/
def wbC3 : List SheetData :=
  [⟨"Hoja1",
    [[tc "BALANCE DE ENERGÍA EN MWh - AÑO 2020"],
     [tc "DESCRIPCIÓN", tc "Ene", tc "Feb", tc "Mar"],
     [tc "COES", nc 1, nc 2, nc 3]]⟩]

/-- Scenario C workbook (spec §8): Sale banner with distributor/free/COES
rows, then a Purchase banner with a zero-valued COES row, then
ancillary/losses rows. -/
def wbC4 : List SheetData :=
  [⟨"2019",
    [[tc "BALANCE DE ENERGÍA EN MWh - AÑO 2019"],
     [tc "DESCRIPCIÓN", tc "Ene", tc "Feb", tc "Mar"],
     [tc "Venta de energía", nc 90, nc 92, nc 95],
     [tc "A emp. Distribuidoras", nc 10, nc 11, nc 12],
     [tc "A clientes Libres", nc 20, nc 21, nc 22],
     [tc "COES", nc 50, nc 60, nc 70],
     [tc "Compra de energía"],
     [tc "COES", nc 0, nc 0, nc 0],
     [tc "Consumo propio de centrales", nc 5, nc 6, nc 7],
     [tc "Pérdidas Sistemas Transmisión", nc 1, nc 2, nc 3]]⟩]

/-- C10 workbook: an energy table whose every month cell is a dash, so no
month column ever registers presence. -/
def wbC10 : List SheetData :=
  [⟨"2022",
    [[tc "BALANCE DE ENERGÍA EN MWh - AÑO 2022"],
     [tc "DESCRIPCIÓN", tc "Ene", tc "Feb", tc "Mar"],
     [tc "COES", tc "-", tc "-", tc "-"]]⟩]

/-- Twelve cells holding the number 1. -/
def onesRow : List Cell := List.replicate 12 (nc 1)

/-- Twelve rational ones. -/
def onesQ : List ℚ := List.replicate 12 1

/-- A full-year workbook: all 12 months present, every metric nonzero, so
the parse carries no warnings at all. -/
def wbFull : List SheetData :=
  [⟨"2021",
    [[tc "BALANCE DE ENERGÍA EN MWh - AÑO 2021"],
     ([tc "DESCRIPCIÓN"] ++ MONTH_ORDER.map tc),
     ([tc "A emp. Distribuidoras"] ++ onesRow),
     ([tc "A clientes Libres"] ++ onesRow),
     ([tc "COES"] ++ onesRow),
     ([tc "Servicios Auxiliares"] ++ onesRow),
     ([tc "Pérdidas Sistemas Transmisión"] ++ onesRow)]⟩]

/-- The (unique) parse result of `wbFull`. -/
def rFull : BalanceParseResult :=
  ⟨2021, MONTH_ORDER, MONTH_ORDER, ⟨onesQ, onesQ, onesQ, onesQ, onesQ⟩,
   none, [], "balance-xlsx", "2021", some "Dic"⟩

/-- A concrete higher-priority candidate (for exercising `_is_better`). -/
def candX : SheetCandidate := ⟨2018, "2018-R2 (LDS)", 4, 0, []⟩

/-- A concrete lower-priority candidate with a higher revision number. -/
def candY : SheetCandidate := ⟨2018, "2018-R1", 3, 5, []⟩

/-- A concrete post-scan energy state: COES found in the Sale section
(nonzero), a residual COES row recorded before any banner. -/
def scanC4 : EnergyScan :=
  ⟨[("regulados", [5]), ("libres", [0]), ("coes", [7]),
    ("servicios_aux", [0]), ("perdidas", [0])],
   some TableSection.venta, none, none, [("coes", [9])]⟩

example :
    ((transform wbA).toOption.map (List.map (fun r =>
        (r.year, r.observed_months, r.energy.regulados, r.energy.coes,
         r.energy.servicios_aux, r.last_month)))) =
      some [(2025, ["Ene", "Feb"],
             [1000, 1100, 0, 0, 0, 0, 0, 0, 0, 0, 0, 0],
             [200, 250, 0, 0, 0, 0, 0, 0, 0, 0, 0, 0],
             [50, 55, 0, 0, 0, 0, 0, 0, 0, 0, 0, 0],
             some "Feb")] := by rfl

example : transform wbFull = Except.ok [rFull] := by rfl

example : (select_candidates wbB).map (fun p => (p.1, p.2.sheet_name)) =
    [(2018, "2018-R2 (LDS)")] := by rfl

example : (select_candidates wbC1).map (fun p => (p.1, p.2.sheet_name)) =
    [(2024, "2024"), (2023, "2023")] := by rfl

example : transform wbC1 =
    Except.error "No se encontró fila de encabezados con 'DESCRIPCIÓN' y meses." := by rfl

example : ((transform wbC1good).toOption.map (List.map (fun r => r.year))) =
    some [2024] := by rfl

example : ((transform wbC2).toOption.map (List.map (fun r =>
    (r.observed_months, r.last_month)))) =
    some [(["Ene", "Mar"], some "Mar")] := by rfl

example : select_candidates wbC3 = [] := by rfl

example : find_title_year (wbC3.headD ⟨"", []⟩).grid = some 2020 := by rfl

example : transform wbC3 =
    Except.error "No se encontró un título 'BALANCE DE ENERGÍA EN MWh - AÑO YYYY' en el Excel." := by rfl

example : ((transform wbC4).toOption.map (List.map (fun r =>
    (r.energy.coes, r.energy.regulados, r.energy.servicios_aux)))) =
    some [([50, 60, 70, 0, 0, 0, 0, 0, 0, 0, 0, 0],
           [10, 11, 12, 0, 0, 0, 0, 0, 0, 0, 0, 0],
           [5, 6, 7, 0, 0, 0, 0, 0, 0, 0, 0, 0])] := by rfl

example : ((transform wbC10).toOption.map (List.map (fun r =>
    (r.observed_months, r.last_month)))) =
    some [(MONTH_ORDER, some "Dic")] := by rfl

example : normalize_label (Cell.str " Pérdidas; Sistemas–Transmisión: ") =
    "PERDIDAS SISTEMAS TRANSMISION" := by decide
example : canonical_header (Cell.str "Descripción") = "descripcion" := by decide
example : canonical_header (Cell.str "Septiembre") = "Set" := by decide
example : canonical_header (Cell.str "Ene") = "Ene" := by decide
example : extract_year_from_title "2018-R2 (LDS)" = some 2018 := by decide
example : extract_year_from_title "Balance 2025" = some 2025 := by decide
example : extract_year_from_title "Hoja1" = none := by decide
example : extract_year_from_title "Perfil" = none := by decide
example : (score_version "2018-R2 (LDS)").1 = 4 := by decide
example : (score_version "2018-R1").1 = 3 := by decide
example : (score_version "2018 V1").1 = 2 := by decide
example : (score_version "2018 REV3").1 = 1 + (3 : ℚ)/1000 := by decide
example : (score_version "2018 REV").1 = 1 := by decide
example : (score_version "2018").1 = 0 := by decide
example : (score_version "2016 (rev3)").1 = 1 + (3 : ℚ)/1000 := by decide
example : (score_version "2025V1").1 = 2 := by decide
example : detect_section "VENTA DE ENERGIA" = some TableSection.venta := by decide
example : detect_section "COMPRA DE ENERGIA" = some TableSection.compra := by decide
example : titleSearch "BALANCE DE ENERGÍA EN MWh - AÑO 2025".data =
    some "BALANCE DE ENERGÍA EN MWh - AÑO 2025".data := by decide
example : findFirstYear "BALANCE DE ENERGÍA EN MWh - AÑO 2025".data = some 2025 := by decide

example : parse_number (Cell.str "1.234,56") = 123456 / 100 := by decide
example : parse_number (Cell.str "1,234.56") = 123456 / 100 := by decide
example : parse_number (Cell.str "1234,56") = 123456 / 100 := by decide
example : parse_number (Cell.str "-") = 0 := by decide
example : parse_number Cell.blank = 0 := by decide
example : parse_number (Cell.str "  ") = 0 := by decide
example : parse_number (Cell.str "-1 234,5") = -(12345 / 10) := by decide

/-! Helper lemmas: association maps, `mapE`, sorting -/

theorem mget_nil (k : String) : mget [] k = none := rfl

theorem mget_cons (p : String × List ℚ) (t : List (String × List ℚ)) (k : String) :
    mget (p :: t) k = if p.1 = k then some p.2 else mget t k := by
  by_cases hp : p.1 = k <;> simp [mget, List.find?_cons, hp]

theorem mget_mset_self (m : List (String × List ℚ)) (k : String) (v : List ℚ) :
    mget (mset m k v) k = some v := by
  induction m with
  | nil => simp [mset, mget_cons, mget_nil]
  | cons p t ih =>
      by_cases hp : p.1 = k
      · simp [mset, hp, mget_cons]
      · simp [mset, hp, mget_cons, ih]

theorem mget_mset_ne (m : List (String × List ℚ)) {k k' : String} (h : k' ≠ k)
    (v : List ℚ) : mget (mset m k' v) k = mget m k := by
  induction m with
  | nil => simp [mset, mget_cons, mget_nil, h]
  | cons p t ih =>
      by_cases hp : p.1 = k'
      · have hpk : ¬ p.1 = k := by rw [hp]; exact h
        simp [mset, hp, mget_cons, h, hpk]
      · simp [mset, hp, mget_cons, ih]

theorem mem_of_mget {m : List (String × List ℚ)} {k : String} {v : List ℚ}
    (h : mget m k = some v) : (k, v) ∈ m := by
  induction m with
  | nil => simp [mget_nil] at h
  | cons p t ih =>
      rw [mget_cons] at h
      by_cases hp : p.1 = k
      · rw [if_pos hp] at h
        cases p with
        | mk p1 p2 =>
            simp only at hp
            simp only [Option.some.injEq] at h
            subst hp
            subst h
            exact List.mem_cons_self _ _
      · rw [if_neg hp] at h
        exact List.mem_cons_of_mem _ (ih h)

theorem mhas_of_mget {m : List (String × List ℚ)} {k : String} {v : List ℚ}
    (h : mget m k = some v) : mhas m k = true := by
  have hm := mem_of_mget h
  exact List.any_eq_true.mpr ⟨(k, v), hm, by simp⟩

theorem mapE_ok_of_forall {f : α → Except String β} :
    ∀ {l : List α}, (∀ x ∈ l, ∃ y, f x = Except.ok y) →
      ∃ ys, mapE f l = Except.ok ys ∧ ys.length = l.length := by
  intro l
  induction l with
  | nil => intro _; exact ⟨[], rfl, rfl⟩
  | cons x t ih =>
      intro h
      obtain ⟨y, hy⟩ := h x (List.mem_cons_self _ _)
      obtain ⟨ys, hys, hlen⟩ := ih (fun z hz => h z (List.mem_cons_of_mem _ hz))
      refine ⟨y :: ys, ?_, by simp [hlen]⟩
      simp [mapE, hy, hys]

theorem mapE_error_of_mem {f : α → Except String β} :
    ∀ {l : List α} {x : α} {e : String}, x ∈ l → f x = Except.error e →
      ∃ e', mapE f l = Except.error e' := by
  intro l
  induction l with
  | nil => intro x e h; simp at h
  | cons a t ih =>
      intro x e hx hfx
      rcases List.mem_cons.mp hx with h | h
      · subst h
        exact ⟨e, by simp [mapE, hfx]⟩
      · cases hfa : f a with
        | error e' => exact ⟨e', by simp [mapE, hfa]⟩
        | ok y =>
            obtain ⟨e', he'⟩ := ih h hfx
            exact ⟨e', by simp [mapE, hfa, he']⟩

theorem mapE_ok_mem {f : α → Except String β} :
    ∀ {l : List α} {ys : List β} {y : β}, mapE f l = Except.ok ys → y ∈ ys →
      ∃ x ∈ l, f x = Except.ok y := by
  intro l
  induction l with
  | nil =>
      intro ys y h hy
      simp [mapE] at h
      subst h
      simp at hy
  | cons a t ih =>
      intro ys y h hy
      cases hfa : f a with
      | error e => simp [mapE, hfa] at h
      | ok z =>
          cases hmt : mapE f t with
          | error e => simp [mapE, hfa, hmt] at h
          | ok zs =>
              simp [mapE, hfa, hmt] at h
              subst h
              rcases List.mem_cons.mp hy with h | h
              · exact ⟨a, List.mem_cons_self _ _, by simp [hfa, h]⟩
              · obtain ⟨x, hx, hfx⟩ := ih hmt h
                exact ⟨x, List.mem_cons_of_mem _ hx, hfx⟩

theorem mem_insertByYear {r a : BalanceParseResult} :
    ∀ {l : List BalanceParseResult}, a ∈ insertByYear r l ↔ a = r ∨ a ∈ l := by
  intro l
  induction l with
  | nil => simp [insertByYear]
  | cons x t ih =>
      by_cases h : r.year < x.year
      · simp [insertByYear, h]
      · simp [insertByYear, h, ih]
        tauto

theorem mem_sortByYear {a : BalanceParseResult} :
    ∀ {l : List BalanceParseResult}, a ∈ sortByYear l ↔ a ∈ l := by
  intro l
  induction l with
  | nil => simp [sortByYear]
  | cons x t ih =>
      simp only [sortByYear, List.foldr_cons] at *
      rw [mem_insertByYear]
      simp [ih]

theorem length_insertByYear (r : BalanceParseResult) :
    ∀ (l : List BalanceParseResult), (insertByYear r l).length = l.length + 1 := by
  intro l
  induction l with
  | nil => simp [insertByYear]
  | cons x t ih =>
      by_cases h : r.year < x.year
      · simp [insertByYear, h]
      · simp [insertByYear, h, ih]

theorem length_sortByYear :
    ∀ (l : List BalanceParseResult), (sortByYear l).length = l.length := by
  intro l
  induction l with
  | nil => rfl
  | cons x t ih => simp [sortByYear, List.foldr_cons, length_insertByYear] at *; omega

theorem observed_sublist :
    ∀ (l : List String) (bs : List Bool),
      ((l.zip bs).filterMap (fun p => if p.2 then some p.1 else none)).Sublist l := by
  intro l
  induction l with
  | nil => intro bs; simp
  | cons x t ih =>
      intro bs
      cases bs with
      | nil => simp
      | cons b bt =>
          cases b
          · simpa using List.Sublist.cons x (ih bt)
          · simpa using List.Sublist.cons₂ x (ih bt)

/-! Helper lemmas: the month aligner -/

theorem alignStep_eq (an : List String) (ap : List Bool)
    (s : List (String × List ℚ)) (acc : AlignAcc) (m : String) :
    alignStep an ap s acc m =
      ⟨acc.months ++ [m],
       acc.pres ++ [alignPres an ap m],
       acc.series.map (fun p => (p.1, p.2 ++ [alignValue an s p.1 m])),
       acc.warns ++
         (if an.contains m then []
          else ["Mes '" ++ m ++ "' no encontrado en la tabla. Se usa 0."])⟩ := by
  by_cases h : m ∈ an <;>
    simp [alignStep, alignValue, alignPres, h, List.elem_eq_mem]

theorem foldAlign_months (an : List String) (ap : List Bool)
    (s : List (String × List ℚ)) :
    ∀ (l : List String) (acc : AlignAcc),
      (l.foldl (alignStep an ap s) acc).months = acc.months ++ l := by
  intro l
  induction l with
  | nil => intro acc; simp
  | cons m t ih =>
      intro acc
      rw [List.foldl_cons, ih, alignStep_eq]
      simp

theorem foldAlign_pres (an : List String) (ap : List Bool)
    (s : List (String × List ℚ)) :
    ∀ (l : List String) (acc : AlignAcc),
      (l.foldl (alignStep an ap s) acc).pres =
        acc.pres ++ l.map (alignPres an ap) := by
  intro l
  induction l with
  | nil => intro acc; simp
  | cons m t ih =>
      intro acc
      rw [List.foldl_cons, ih, alignStep_eq]
      simp

theorem foldAlign_series (an : List String) (ap : List Bool)
    (s : List (String × List ℚ)) :
    ∀ (l : List String) (acc : AlignAcc),
      (l.foldl (alignStep an ap s) acc).series =
        acc.series.map (fun p => (p.1, p.2 ++ l.map (alignValue an s p.1))) := by
  intro l
  induction l with
  | nil => intro acc; simp
  | cons m t ih =>
      intro acc
      rw [List.foldl_cons, ih, alignStep_eq]
      simp only [List.map_map]
      congr 1
      funext p
      simp [Function.comp, List.append_assoc]

theorem truncAlign_months (cn : List String) (pr : List Bool)
    (s : List (String × List ℚ)) (keys : List String) :
    (truncAlign cn pr s keys).months = MONTH_ORDER := by
  rw [truncAlign, foldAlign_months]
  rfl

theorem truncAlign_pres (cn : List String) (pr : List Bool)
    (s : List (String × List ℚ)) (keys : List String) :
    (truncAlign cn pr s keys).pres =
      MONTH_ORDER.map (alignPres (activeNamesOf cn pr s) (activePresOf pr s)) := by
  rw [truncAlign, foldAlign_pres]
  rfl

theorem truncAlign_series (cn : List String) (pr : List Bool)
    (s : List (String × List ℚ)) (keys : List String) :
    (truncAlign cn pr s keys).series =
      keys.map (fun k =>
        (k, MONTH_ORDER.map (alignValue (activeNamesOf cn pr s) s k))) := by
  rw [truncAlign, foldAlign_series]
  simp [List.map_map, Function.comp]

theorem truncAlign_series_length {cn : List String} {pr : List Bool}
    {s : List (String × List ℚ)} {keys : List String} {p : String × List ℚ}
    (hp : p ∈ (truncAlign cn pr s keys).series) : p.2.length = 12 := by
  rw [truncAlign_series] at hp
  obtain ⟨k, _, hk⟩ := List.mem_map.mp hp
  rw [← hk]
  simp [MONTH_ORDER]

theorem extract_table_ok_shape {df : List (List Cell)} {h : ℕ} {isS : Bool}
    {mo : List String} {pr : List Bool} {se : List (String × List ℚ)}
    {wa : List String}
    (hok : extract_table df h isS = Except.ok (mo, pr, se, wa)) :
    mo = MONTH_ORDER ∧ ∀ p ∈ se, p.2.length = 12 := by
  simp only [extract_table] at hok
  split at hok
  · simp at hok
  · simp only [Except.ok.injEq, Prod.mk.injEq] at hok
    obtain ⟨h1, _, h3, _⟩ := hok
    constructor
    · rw [← h1, truncAlign_months]
    · intro p hp
      rw [← h3] at hp
      exact truncAlign_series_length hp

theorem getD_take_of_lt {l : List α} {n i : ℕ} (h : i < n) (d : α) :
    (l.take n).getD i d = l.getD i d := by
  simp [List.getD_eq_getElem?_getD, List.getElem?_take_of_lt h]

theorem getD_map_lt {f : α → β} {l : List α} {i : ℕ} (h : i < l.length) (d : β) :
    (l.map f).getD i d = f (l.get ⟨i, h⟩) := by
  simp [List.getD_eq_getElem?_getD, List.getElem?_map, List.getElem?_eq_getElem h]

theorem activeNames_getD (cn : List String) (pr : List Bool)
    (s : List (String × List ℚ)) {i : ℕ}
    (h : i < (activeNamesOf cn pr s).length) (d : String) :
    (activeNamesOf cn pr s).getD i d = cn.getD i d ∧ i < cn.length := by
  unfold activeNamesOf at h ⊢
  cases hl : lastWithData s pr with
  | none => rw [hl] at h; exact ⟨rfl, h⟩
  | some k =>
      rw [hl] at h
      simp only [List.length_take, lt_min_iff] at h
      exact ⟨getD_take_of_lt h.1 d, h.2⟩

theorem alignValue_zero {cn : List String} {pr : List Bool}
    {s : List (String × List ℚ)} (k m : String)
    (H : ∀ j, j < cn.length → isDataCol s pr j = true →
         MONTH_ORDER.indexOf (cn.getD j "") < MONTH_ORDER.indexOf m) :
    alignValue (activeNamesOf cn pr s) s k m = 0 := by
  unfold alignValue
  by_cases hmem : m ∈ activeNamesOf cn pr s
  · have hc : (activeNamesOf cn pr s).contains m = true := by
      simpa [List.elem_eq_mem] using hmem
    rw [if_pos hc]
    set an := activeNamesOf cn pr s with han
    have hidx : an.indexOf m < an.length := List.indexOf_lt_length.mpr hmem
    have hget : an.getD (an.indexOf m) "" = m := by
      rw [List.getD_eq_getElem?_getD, List.getElem?_eq_getElem hidx]
      simp [List.getElem_indexOf hidx]
    obtain ⟨hcn, hlt⟩ := activeNames_getD cn pr s hidx ""
    have hcnm : cn.getD (an.indexOf m) "" = m := by rw [← hcn, hget]
    have hdata : isDataCol s pr (an.indexOf m) = false := by
      by_contra hd
      have hd' : isDataCol s pr (an.indexOf m) = true := by
        revert hd; cases isDataCol s pr (an.indexOf m) <;> simp
      have := H (an.indexOf m) hlt hd'
      rw [hcnm] at this
      omega
    simp only [isDataCol, Bool.or_eq_false_iff] at hdata
    obtain ⟨_, hser⟩ := hdata
    rw [List.any_eq_false] at hser
    cases hmg : mget s k with
    | none => simp
    | some v =>
        have hv := hser (k, v) (mem_of_mget hmg)
        simp only [decide_eq_true_eq, Decidable.not_not] at hv
        simpa [hmg] using hv
  · rw [if_neg (by simpa [List.elem_eq_mem] using hmem)]

/-- The C9 core: a canonical month strictly beyond every data column gets a
zero entry for every metric after truncation and alignment. -/
theorem truncAlign_beyond_zero {cn : List String} {pr : List Bool}
    {s : List (String × List ℚ)} {keys : List String} (m : String)
    (hm : m ∈ MONTH_ORDER)
    (H : ∀ j, j < cn.length → isDataCol s pr j = true →
         MONTH_ORDER.indexOf (cn.getD j "") < MONTH_ORDER.indexOf m) :
    ∀ p ∈ (truncAlign cn pr s keys).series,
      p.2.getD (MONTH_ORDER.indexOf m) 0 = 0 := by
  intro p hp
  rw [truncAlign_series] at hp
  obtain ⟨k, _, hk⟩ := List.mem_map.mp hp
  rw [← hk]
  simp only
  have hi : MONTH_ORDER.indexOf m < MONTH_ORDER.length :=
    List.indexOf_lt_length.mpr hm
  rw [getD_map_lt hi]
  have hgm : MONTH_ORDER.get ⟨MONTH_ORDER.indexOf m, hi⟩ = m := by
    simp [List.getElem_indexOf hi]
  rw [hgm]
  exact alignValue_zero k m H

/-- Zero-fill for absent months: a canonical month that does not occur
among the active (truncated) header month names receives exactly 0 for
every metric after alignment (balance_transformer.py:471-476, the
else-branch of the alignment loop). -/
theorem truncAlign_absent_zero {cn : List String} {pr : List Bool}
    {s : List (String × List ℚ)} {keys : List String} (m : String)
    (hm : m ∈ MONTH_ORDER) (habs : m ∉ activeNamesOf cn pr s) :
    ∀ p ∈ (truncAlign cn pr s keys).series,
      p.2.getD (MONTH_ORDER.indexOf m) 0 = 0 := by
  intro p hp
  rw [truncAlign_series] at hp
  obtain ⟨k, _, hk⟩ := List.mem_map.mp hp
  rw [← hk]
  simp only
  have hi : MONTH_ORDER.indexOf m < MONTH_ORDER.length :=
    List.indexOf_lt_length.mpr hm
  rw [getD_map_lt hi]
  have hgm : MONTH_ORDER.get ⟨MONTH_ORDER.indexOf m, hi⟩ = m := by
    simp [List.getElem_indexOf hi]
  rw [hgm]
  unfold alignValue
  rw [if_neg (by simpa [List.elem_eq_mem] using habs)]

/-! Helper lemmas: presence tracking (C8) -/

theorem foldBuild_snd (descCol : ℕ) (cols : List ℕ) :
    ∀ (rows : List (List Cell)) (acc : List (String × List ℚ) × List Bool),
      (rows.foldl
        (fun acc row =>
          (acc.1 ++ [(normalize_label (row.getD descCol (Cell.str "")), rowVals row cols)],
           updPresence row cols acc.2)) acc).2 =
        rows.foldl (fun pres row => updPresence row cols pres) acc.2 := by
  intro rows
  induction rows with
  | nil => intro acc; rfl
  | cons r t ih => intro acc; simp only [List.foldl_cons, ih]

theorem buildData_presence (rows : List (List Cell)) (descCol : ℕ)
    (cols : List ℕ) :
    (buildData rows descCol cols).2 =
      rows.foldl (fun pres row => updPresence row cols pres)
        (List.replicate cols.length false) := by
  unfold buildData
  exact foldBuild_snd descCol cols rows ([], List.replicate cols.length false)

theorem updPresence_length (row : List Cell) (cols : List ℕ) (pres : List Bool) :
    (updPresence row cols pres).length = min cols.length pres.length := by
  simp [updPresence]

theorem updPresence_getD :
    ∀ (cols : List ℕ) (pres : List Bool) (row : List Cell) (midx : ℕ),
      pres.length = cols.length → midx < cols.length →
      (updPresence row cols pres).getD midx false =
        (pres.getD midx false || colCond row (cols.getD midx 0)) := by
  intro cols
  induction cols with
  | nil => intro pres row midx _ hm; simp at hm
  | cons c ct ih =>
      intro pres row midx hlen hm
      cases pres with
      | nil => simp at hlen
      | cons p pt =>
          cases midx with
          | zero => simp [updPresence]
          | succ n =>
              have h1 : pt.length = ct.length := by simpa using hlen
              have h2 : n < ct.length := by simpa using hm
              simpa [updPresence] using ih pt row n h1 h2

theorem presenceFold_getD (cols : List ℕ) (midx : ℕ) (hm : midx < cols.length) :
    ∀ (rows : List (List Cell)) (pres : List Bool), pres.length = cols.length →
      (rows.foldl (fun pres row => updPresence row cols pres) pres).getD midx false =
        (pres.getD midx false ||
          rows.any (fun row => colCond row (cols.getD midx 0))) := by
  intro rows
  induction rows with
  | nil => intro pres _; simp
  | cons r t ih =>
      intro pres hlen
      have hlen' : (updPresence r cols pres).length = cols.length := by
        rw [updPresence_length, hlen]; simp
      simp only [List.foldl_cons, List.any_cons]
      rw [ih (updPresence r cols pres) hlen',
          updPresence_getD cols pres r midx hlen hm]
      simp [Bool.or_assoc]

/-- Full characterization of a tracked presence flag: true exactly when
some scanned data row has, at that month column, a raw cell that is
non-blank/non-dash/non-NaN and parses to a NONZERO value. -/
theorem buildData_presence_char (rows : List (List Cell)) (descCol : ℕ)
    (cols : List ℕ) (midx : ℕ) (hm : midx < cols.length) :
    ((buildData rows descCol cols).2.getD midx false = true ↔
      ∃ row ∈ rows, colCond row (cols.getD midx 0) = true) := by
  rw [buildData_presence,
      presenceFold_getD cols midx hm rows (List.replicate cols.length false) (by simp)]
  have hrep : (List.replicate cols.length false).getD midx false = false := by
    simp [List.getD_eq_getElem?_getD, List.getElem?_replicate, hm]
  rw [hrep]
  simp [List.any_eq_true]

/-! Helper lemmas: the `_parse_sheet` loop invariant -/

theorem extract_ok_getD_len {df : List (List Cell)} {h : ℕ} {isS : Bool}
    {mo : List String} {pr : List Bool} {se : List (String × List ℚ)}
    {wa : List String}
    (hok : extract_table df h isS = Except.ok (mo, pr, se, wa)) (k : String) :
    ((mget se k).getD (zerosQ mo.length)).length = 12 := by
  obtain ⟨hmo, hselen⟩ := extract_table_ok_shape hok
  cases hmg : mget se k with
  | none => simp [zerosQ, hmo, MONTH_ORDER]
  | some v => simpa [hmg] using hselen (k, v) (mem_of_mget hmg)

theorem parseStep_inv {df : List (List Cell)} {st : ParseState} (h : ℕ)
    (hinv : ParseInv st) : ParseInv (parseStep df st h) := by
  obtain ⟨hem, hsub, henone, hlast, helen, hslen⟩ := hinv
  simp only [parseStep]
  cases hx : extract_table df h (isSalesHeader df h) with
  | error e => exact ⟨hem, hsub, henone, hlast, helen, hslen⟩
  | ok tup =>
      obtain ⟨mo, pr, se, wa⟩ := tup
      have hget := extract_ok_getD_len hx
      obtain ⟨hmo, _⟩ := extract_table_ok_shape hx
      subst hmo
      dsimp only
      split
      · -- first monetary table
        refine ⟨hem, hsub, ?_, hlast, helen, ?_⟩
        · intro he
          exact henone he
        · intro ss hss
          simp only [Option.some.injEq] at hss
          subst hss
          exact ⟨hget _, hget _, hget _, hget _⟩
      · split
        · -- first energy table
          rename_i hcond
          obtain ⟨_, hE⟩ := hcond
          obtain ⟨hO, hL⟩ := henone hE
          refine ⟨rfl, observed_sublist _ _, ?_, ?_, ?_, hslen⟩
          · intro he
            simp at he
          · intro hne
            cases hgl : (List.filterMap
                (fun p => if p.2 = true then some p.1 else none)
                (MONTH_ORDER.zip pr)).getLast? with
            | none =>
                rw [List.getLast?_eq_none_iff] at hgl
                simp only [hgl] at hne
                exact absurd rfl hne
            | some y => simp [hgl]
          · intro es hes
            simp only [Option.some.injEq] at hes
            subst hes
            exact ⟨hget _, hget _, hget _, hget _, hget _⟩
        · exact ⟨hem, hsub, fun he => henone he, hlast, helen, hslen⟩

theorem parseFold_inv (df : List (List Cell)) :
    ∀ (hs : List ℕ) {st : ParseState}, ParseInv st →
      ParseInv (hs.foldl (parseStep df) st) := by
  intro hs
  induction hs with
  | nil => intro st hinv; exact hinv
  | cons h t ih =>
      intro st hinv
      exact ih (parseStep_inv h hinv)

theorem parseFold_inv' (df : List (List Cell)) (hs : List ℕ) :
    ParseInv (parseFold df hs) := by
  unfold parseFold
  refine parseFold_inv df hs ?_
  refine ⟨rfl, List.nil_sublist _, fun _ => ⟨rfl, rfl⟩, ?_, ?_, ?_⟩
  · intro hne; exact absurd rfl hne
  · intro es hes; simp at hes
  · intro ss hss; simp at hss

/-- Everything `_parse_sheet` guarantees about a successfully parsed sheet:
canonical month axis, a non-empty observed window that is a subsequence of
the canonical months, `last_month` equal to the window's last element, and
12-entry series throughout. -/
theorem parse_sheet_ok_inv {grid : List (List Cell)} {year : ℕ}
    {sheetName sourceId : String} {r : BalanceParseResult}
    (h : parse_sheet grid year sheetName sourceId = Except.ok r) :
    r.months = MONTH_ORDER ∧
    r.observed_months ≠ [] ∧
    r.observed_months.Sublist MONTH_ORDER ∧
    r.last_month = r.observed_months.getLast? ∧
    (r.energy.regulados.length = 12 ∧ r.energy.libres.length = 12 ∧
     r.energy.coes.length = 12 ∧ r.energy.servicios_aux.length = 12 ∧
     r.energy.perdidas.length = 12) ∧
    (∀ ss, r.sales = some ss →
      ss.regulados.length = 12 ∧ ss.libres.length = 12 ∧
      ss.coes_spot.length = 12 ∧ ss.otros.length = 12) := by
  simp only [parse_sheet] at h
  split at h
  · exact absurd h (by simp)
  · set st := parseFold (padRect grid) (headersForYear (padRect grid) year)
      with hst
    obtain ⟨hem, hsub, henone, hlast, helen, hslen⟩ :=
      hst ▸ parseFold_inv' (padRect grid) (headersForYear (padRect grid) year)
    split at h
    · exact absurd h (by simp)
    · rename_i es hes
      rw [hem] at h
      simp only [Except.ok.injEq] at h
      subst h
      by_cases hO : st.observed = []
      · rw [hO]
        refine ⟨rfl, ?_, ?_, ?_, helen es hes, hslen⟩
        · exact (by decide : (MONTH_ORDER : List String) ≠ [])
        · exact List.Sublist.refl MONTH_ORDER
        · rfl
      · have hOE : (st.observed).isEmpty = false := by
          cases hc : st.observed with
          | nil => exact absurd hc hO
          | cons a t => simp
        have hOF : (if st.observed.isEmpty = true then
            List.filter (fun m => MONTH_ORDER.contains m) MONTH_ORDER
            else st.observed) = st.observed := by
          rw [hOE]; simp
        have hLF : (if st.observed.isEmpty = true then
            match (List.filter (fun m => MONTH_ORDER.contains m)
                MONTH_ORDER).getLast? with
            | some x => some x
            | none => st.lastMonth
            else st.lastMonth) = st.lastMonth := by
          rw [hOE]; simp
        rw [hOF, hLF]
        have hOuter : (if st.observed.isEmpty = true then MONTH_ORDER
            else st.observed) = st.observed := by
          rw [hOE]; simp
        rw [hOuter]
        exact ⟨rfl, hO, hsub, hlast hO, helen es hes, hslen⟩

/-! Helper lemmas: `transform` and candidate selection -/

theorem transform_mem {wb : List SheetData} {sid : String}
    {rs : List BalanceParseResult} {r : BalanceParseResult}
    (h : transform wb sid = Except.ok rs) (hr : r ∈ rs) :
    ∃ p ∈ select_candidates wb,
      parse_sheet p.2.grid p.1 p.2.sheet_name sid = Except.ok r := by
  simp only [transform] at h
  cases hm : mapE (fun p => parse_sheet p.2.grid p.1 p.2.sheet_name sid)
      (select_candidates wb) with
  | error e => rw [hm] at h; simp at h
  | ok results =>
      rw [hm] at h
      dsimp only at h
      cases hres : results.isEmpty with
      | true => rw [hres] at h; simp at h
      | false =>
          rw [hres] at h
          simp only [Bool.false_eq_true, if_false, Except.ok.injEq] at h
          subst h
          exact mapE_ok_mem hm (mem_sortByYear.mp hr)

theorem mem_cmset : ∀ {m : List (ℕ × SheetCandidate)} {y : ℕ}
    {c : SheetCandidate} {q : ℕ × SheetCandidate},
    q ∈ cmset m y c → q = (y, c) ∨ q ∈ m := by
  intro m
  induction m with
  | nil =>
      intro y c q h
      simp [cmset] at h
      exact Or.inl h
  | cons p t ih =>
      intro y c q h
      by_cases hp : p.1 = y
      · simp only [cmset, hp, if_pos] at h
        rcases List.mem_cons.mp h with h | h
        · exact Or.inl h
        · exact Or.inr (List.mem_cons_of_mem _ h)
      · simp only [cmset, hp, if_neg, if_false] at h
        rcases List.mem_cons.mp h with h | h
        · exact Or.inr (by simp [h])
        · rcases ih h with h | h
          · exact Or.inl h
          · exact Or.inr (List.mem_cons_of_mem _ h)

theorem mem_selectStep {sel : List (ℕ × SheetCandidate)} {sheet : SheetData}
    {q : ℕ × SheetCandidate} (h : q ∈ selectStep sel sheet) :
    q ∈ sel ∨ ∃ y, extract_year_from_title sheet.title = some y ∧
      q = (y, ⟨y, sheet.title, (score_version sheet.title).1,
               (score_version sheet.title).2.1, sheet.grid⟩) := by
  unfold selectStep at h
  cases hy : extract_year_from_title sheet.title with
  | none => rw [hy] at h; exact Or.inl h
  | some y =>
      rw [hy] at h
      dsimp only at h
      cases hg : cmget sel y with
      | none =>
          rw [hg] at h
          dsimp only at h
          rcases mem_cmset h with h | h
          · exact Or.inr ⟨y, rfl, h⟩
          · exact Or.inl h
      | some ex =>
          rw [hg] at h
          dsimp only at h
          by_cases hb : is_better
              ⟨y, sheet.title, (score_version sheet.title).1,
               (score_version sheet.title).2.1, sheet.grid⟩ ex = true
          · rw [if_pos hb] at h
            rcases mem_cmset h with h | h
            · exact Or.inr ⟨y, rfl, h⟩
            · exact Or.inl h
          · rw [if_neg hb] at h
            exact Or.inl h

theorem select_fold_mem :
    ∀ (ws : List SheetData) (acc : List (ℕ × SheetCandidate))
      {q : ℕ × SheetCandidate}, q ∈ ws.foldl selectStep acc →
      q ∈ acc ∨ ∃ sh ∈ ws, extract_year_from_title sh.title = some q.1 ∧
        q.2 = ⟨q.1, sh.title, (score_version sh.title).1,
               (score_version sh.title).2.1, sh.grid⟩ := by
  intro ws
  induction ws with
  | nil => intro acc q h; exact Or.inl h
  | cons sh t ih =>
      intro acc q h
      simp only [List.foldl_cons] at h
      rcases ih (selectStep acc sh) h with h | ⟨sh', hsh', hy, hq⟩
      · rcases mem_selectStep h with h | ⟨y, hy, hq⟩
        · exact Or.inl h
        · refine Or.inr ⟨sh, List.mem_cons_self _ _, ?_, ?_⟩
          · rw [hy]; rw [hq]
          · rw [hq]
      · exact Or.inr ⟨sh', List.mem_cons_of_mem _ hsh', hy, hq⟩

theorem select_candidates_mem {wb : List SheetData} {q : ℕ × SheetCandidate}
    (h : q ∈ select_candidates wb) :
    ∃ sh ∈ wb, extract_year_from_title sh.title = some q.1 ∧
      q.2 = ⟨q.1, sh.title, (score_version sh.title).1,
             (score_version sh.title).2.1, sh.grid⟩ := by
  rcases select_fold_mem wb [] h with h | h
  · simp at h
  · exact h

theorem select_fold_skip :
    ∀ (ws : List SheetData) (acc : List (ℕ × SheetCandidate)),
      (∀ sh ∈ ws, extract_year_from_title sh.title = none) →
      ws.foldl selectStep acc = acc := by
  intro ws
  induction ws with
  | nil => intro acc _; rfl
  | cons sh t ih =>
      intro acc hnone
      have hsh := hnone sh (List.mem_cons_self _ _)
      have hstep : selectStep acc sh = acc := by
        unfold selectStep
        rw [hsh]
      simp only [List.foldl_cons, hstep]
      exact ih acc (fun s hs => hnone s (List.mem_cons_of_mem _ hs))

/-! Helper lemmas: the residual fallback (C4) -/

theorem fallbackStep_mget_ne (fb s : List (String × List ℚ)) {k k' : String}
    (hne : k' ≠ k) : mget (fallbackStep fb s k') k = mget s k := by
  unfold fallbackStep
  cases mget s k' with
  | none => rfl
  | some v =>
      dsimp only
      by_cases hc : allZeroQ v = true ∧ mhas fb k' = true
      · rw [if_pos hc]
        exact mget_mset_ne s hne _
      · rw [if_neg hc]

theorem fallbackStep_keep {fb s : List (String × List ℚ)} {k : String}
    {v : List ℚ} (h : mget s k = some v) (hz : allZeroQ v = false) :
    fallbackStep fb s k = s := by
  unfold fallbackStep
  rw [h]
  dsimp only
  rw [if_neg]
  rintro ⟨h1, _⟩
  rw [hz] at h1
  exact Bool.false_ne_true h1

theorem fallbackStep_swap {fb s : List (String × List ℚ)} {k : String}
    {v w : List ℚ} (h : mget s k = some v) (hz : allZeroQ v = true)
    (hw : mget fb k = some w) : mget (fallbackStep fb s k) k = some w := by
  unfold fallbackStep
  rw [h]
  dsimp only
  rw [if_pos ⟨hz, mhas_of_mget hw⟩, hw]
  simp only [Option.getD_some]
  exact mget_mset_self s k w

theorem applyServicios_mget {st : EnergyScan} {k : String}
    (hk : k ≠ "servicios_aux") :
    mget (applyServicios st) k = mget st.series k := by
  unfold applyServicios
  cases st.savPref with
  | some v => exact mget_mset_ne _ (Ne.symm hk) _
  | none =>
      cases st.savFall with
      | some v => exact mget_mset_ne _ (Ne.symm hk) _
      | none => rfl

theorem finalize_keep {st : EnergyScan} {k : String} {v : List ℚ}
    (hk3 : k = "regulados" ∨ k = "libres" ∨ k = "coes")
    (hv : mget st.series k = some v) (hz : allZeroQ v = false) :
    mget (finalizeEnergy st) k = some v := by
  have h0 : mget (applyServicios st) k = some v := by
    rcases hk3 with h | h | h <;>
      · subst h
        rw [applyServicios_mget (by decide)]
        exact hv
  simp only [finalizeEnergy, List.foldl_cons, List.foldl_nil]
  rcases hk3 with h | h | h
  · subst h
    rw [fallbackStep_mget_ne _ _ (by decide), fallbackStep_mget_ne _ _ (by decide),
        fallbackStep_keep h0 hz]
    exact h0
  · subst h
    have h1 : mget (fallbackStep st.fallbackVenta (applyServicios st) "regulados")
        "libres" = some v := by
      rw [fallbackStep_mget_ne _ _ (by decide)]
      exact h0
    rw [fallbackStep_mget_ne _ _ (by decide), fallbackStep_keep h1 hz]
    exact h1
  · subst h
    have h1 : mget (fallbackStep st.fallbackVenta
        (fallbackStep st.fallbackVenta (applyServicios st) "regulados") "libres")
        "coes" = some v := by
      rw [fallbackStep_mget_ne _ _ (by decide), fallbackStep_mget_ne _ _ (by decide)]
      exact h0
    rw [fallbackStep_keep h1 hz]
    exact h1

theorem finalize_swap {st : EnergyScan} {k : String} {v w : List ℚ}
    (hk3 : k = "regulados" ∨ k = "libres" ∨ k = "coes")
    (hv : mget st.series k = some v) (hz : allZeroQ v = true)
    (hw : mget st.fallbackVenta k = some w) :
    mget (finalizeEnergy st) k = some w := by
  have h0 : mget (applyServicios st) k = some v := by
    rcases hk3 with h | h | h <;>
      · subst h
        rw [applyServicios_mget (by decide)]
        exact hv
  simp only [finalizeEnergy, List.foldl_cons, List.foldl_nil]
  rcases hk3 with h | h | h
  · subst h
    rw [fallbackStep_mget_ne _ _ (by decide), fallbackStep_mget_ne _ _ (by decide)]
    exact fallbackStep_swap h0 hz hw
  · subst h
    have h1 : mget (fallbackStep st.fallbackVenta (applyServicios st) "regulados")
        "libres" = some v := by
      rw [fallbackStep_mget_ne _ _ (by decide)]
      exact h0
    rw [fallbackStep_mget_ne _ _ (by decide)]
    exact fallbackStep_swap h1 hz hw
  · subst h
    have h1 : mget (fallbackStep st.fallbackVenta
        (fallbackStep st.fallbackVenta (applyServicios st) "regulados") "libres")
        "coes" = some v := by
      rw [fallbackStep_mget_ne _ _ (by decide), fallbackStep_mget_ne _ _ (by decide)]
      exact h0
    exact fallbackStep_swap h1 hz hw

/-! The claims -/

/-- Claim C1, counterexample: the claim says a per-year extraction failure
(here: sheet "2023" has no header row) is logged and skipped without
aborting sibling years.  In the code the `_parse_sheet` exception
propagates out of `transform`: with the perfectly parseable year 2024
selected alongside the header-less year 2023 (both are candidates), the
whole transform raises the header error instead of returning the 2024
result, which `transform` does produce when 2023 is absent. -/
theorem claim_C1_counterexample :
    (select_candidates wbC1).map (fun p => (p.1, p.2.sheet_name)) =
      [(2024, "2024"), (2023, "2023")] ∧
    transform wbC1 DEFAULT_SOURCE_ID =
      Except.error "No se encontró fila de encabezados con 'DESCRIPCIÓN' y meses." ∧
    (transform wbC1good DEFAULT_SOURCE_ID).toOption.map
        (List.map (fun r => r.year)) = some [2024] :=
  ⟨by rfl, by rfl, by rfl⟩

/-- Claim C1, amended: `transform` raises the hard title error exactly when
zero year-titled sheets were selected; a per-year extraction failure (no
header row, or no energy table for that year) makes the WHOLE transform
raise — sibling years are aborted, not skipped; when every selected year
parses, transform returns one result per selected year. -/
theorem claim_C1 :
    (∀ (wb : List SheetData) (sid : String), select_candidates wb = [] →
      transform wb sid = Except.error
        "No se encontró un título 'BALANCE DE ENERGÍA EN MWh - AÑO YYYY' en el Excel.") ∧
    (∀ (wb : List SheetData) (sid : String) (p : ℕ × SheetCandidate) (e : String),
      p ∈ select_candidates wb →
      parse_sheet p.2.grid p.1 p.2.sheet_name sid = Except.error e →
      ∃ e', transform wb sid = Except.error e') ∧
    (∀ (wb : List SheetData) (sid : String),
      select_candidates wb ≠ [] →
      (∀ p ∈ select_candidates wb, ∃ r,
        parse_sheet p.2.grid p.1 p.2.sheet_name sid = Except.ok r) →
      ∃ rs, transform wb sid = Except.ok rs ∧
        rs.length = (select_candidates wb).length) := by
  refine ⟨?_, ?_, ?_⟩
  · intro wb sid hsel
    simp only [transform, hsel]
    rfl
  · intro wb sid p e hp he
    obtain ⟨e', he'⟩ :=
      @mapE_error_of_mem (ℕ × SheetCandidate) BalanceParseResult
        (fun q => parse_sheet q.2.grid q.1 q.2.sheet_name sid)
        (select_candidates wb) p e hp he
    exact ⟨e', by simp only [transform, he']⟩
  · intro wb sid hne hall
    obtain ⟨ys, hys, hlen⟩ := mapE_ok_of_forall hall
    have hysne : ys.isEmpty = false := by
      cases hys' : ys with
      | nil =>
          subst hys'
          simp only [List.length_nil] at hlen
          exact absurd (List.eq_nil_of_length_eq_zero hlen.symm) hne
      | cons a t => simp
    refine ⟨sortByYear ys, ?_, ?_⟩
    · simp only [transform, hys, hysne, Bool.false_eq_true, if_false]
    · rw [length_sortByYear, hlen]

/-- Claim C1, witness for the amended theorem: the failing year 2023 of
`wbC1` makes the whole transform raise. -/
theorem claim_C1_witness :
    ∃ e', transform wbC1 DEFAULT_SOURCE_ID = Except.error e' :=
  claim_C1.2.1 wbC1 DEFAULT_SOURCE_ID
    (2023, ⟨2023, "2023", 0, 0, gridNoHeader⟩)
    "No se encontró fila de encabezados con 'DESCRIPCIÓN' y meses."
    (by decide) (by rfl)

/-- Claim C2, counterexample: a sheet with January and March data but a
blank February yields `observed_months = ["Ene", "Mar"]` — an interior
gap, so NOT a prefix of the canonical month list (while the claim asserts
every month lacking data terminates the window). -/
theorem claim_C2_counterexample :
    (transform wbC2 DEFAULT_SOURCE_ID).toOption.map
        (List.map (fun r =>
          (r.observed_months, r.observed_months.isPrefixOf MONTH_ORDER))) =
      some [(["Ene", "Mar"], false)] := by rfl

/-- Claim C2, amended: `observed_months` of every ParseResult returned by
`transform` is an order-preserving SUBSEQUENCE of the canonical month list
(months without nonzero data are omitted, possibly leaving interior gaps,
as only the trailing truncation is contiguous), it is never empty, and
`last_month` always equals its final element. -/
theorem claim_C2 (wb : List SheetData) (sid : String)
    (rs : List BalanceParseResult) (r : BalanceParseResult)
    (hok : transform wb sid = Except.ok rs) (hr : r ∈ rs) :
    r.observed_months ≠ [] ∧ r.observed_months.Sublist MONTH_ORDER ∧
    r.last_month = r.observed_months.getLast? := by
  obtain ⟨p, _, hp⟩ := transform_mem hok hr
  obtain ⟨_, h2, h3, h4, _, _⟩ := parse_sheet_ok_inv hp
  exact ⟨h2, h3, h4⟩

/-- Claim C2, witness: the amended theorem applied to the full-year
workbook. -/
theorem claim_C2_witness :
    rFull.observed_months ≠ [] ∧ rFull.observed_months.Sublist MONTH_ORDER ∧
    rFull.last_month = rFull.observed_months.getLast? :=
  claim_C2 wbFull DEFAULT_SOURCE_ID [rFull] rFull (by rfl) (by simp)

/-- Claim C3, counterexample: a sheet named "Hoja1" whose CELLS carry a
fully valid year title (the in-sheet scan `_find_title_year` sees 2020)
and a complete energy table is nevertheless skipped by candidate
selection, and the workbook errors out — because `_select_candidates`
derives the year from the sheet NAME, never scanning cells. -/
theorem claim_C3_counterexample :
    find_title_year (wbC3.headD ⟨"", []⟩).grid = some 2020 ∧
    select_candidates wbC3 = [] ∧
    transform wbC3 DEFAULT_SOURCE_ID = Except.error
      "No se encontró un título 'BALANCE DE ENERGÍA EN MWh - AÑO YYYY' en el Excel." :=
  ⟨by rfl, by rfl, by rfl⟩

/-- Claim C3, amended: during candidate selection the year of each sheet is
extracted from the sheet NAME (`_extract_year_from_title` on the title,
after splitting letter/digit runs); a sheet whose name yields no year is
skipped (logged, not an error); cell contents are not consulted. -/
theorem claim_C3 :
    (∀ (wb : List SheetData) (q : ℕ × SheetCandidate),
      q ∈ select_candidates wb →
      extract_year_from_title q.2.sheet_name = some q.1 ∧
      ∃ sh ∈ wb, sh.title = q.2.sheet_name ∧ sh.grid = q.2.grid) ∧
    (∀ wb : List SheetData,
      (∀ sh ∈ wb, extract_year_from_title sh.title = none) →
      select_candidates wb = []) := by
  constructor
  · intro wb q hq
    obtain ⟨sh, hsh, hy, hq2⟩ := select_candidates_mem hq
    refine ⟨?_, sh, hsh, ?_, ?_⟩
    · rw [hq2]
      exact hy
    · rw [hq2]
    · rw [hq2]
  · intro wb hall
    exact select_fold_skip wb [] hall

/-- Claim C3, witness: the amended theorem applied to the surviving
candidate of the Scenario B workbook. -/
theorem claim_C3_witness :
    extract_year_from_title
        (2018, (⟨2018, "2018-R2 (LDS)", 4, 0, []⟩ : SheetCandidate)).2.sheet_name =
      some (2018, (⟨2018, "2018-R2 (LDS)", 4, 0, []⟩ : SheetCandidate)).1 ∧
    ∃ sh ∈ wbB,
      sh.title = (2018, (⟨2018, "2018-R2 (LDS)", 4, 0, []⟩ : SheetCandidate)).2.sheet_name ∧
      sh.grid = (2018, (⟨2018, "2018-R2 (LDS)", 4, 0, []⟩ : SheetCandidate)).2.grid :=
  claim_C3.1 wbB (2018, ⟨2018, "2018-R2 (LDS)", 4, 0, []⟩) (by decide)

/-- Claim C4: in Scenario C the extracted COES series equals the
Sale-section row's values for every month (not the zero-valued
Purchase-section residual); and in general, for the regulated/free/COES
metrics, a pre-banner residual match is used exactly when the section
-scoped pass left the metric all-zero: a non-all-zero scoped series is
kept, an all-zero one is replaced by the recorded residual. -/
theorem claim_C4 :
    ((transform wbC4 DEFAULT_SOURCE_ID).toOption.map
        (List.map (fun r => r.energy.coes)) =
      some [[50, 60, 70, 0, 0, 0, 0, 0, 0, 0, 0, 0]]) ∧
    (∀ (st : EnergyScan) (k : String) (v : List ℚ),
      (k = "regulados" ∨ k = "libres" ∨ k = "coes") →
      mget st.series k = some v → allZeroQ v = false →
      mget (finalizeEnergy st) k = some v) ∧
    (∀ (st : EnergyScan) (k : String) (v w : List ℚ),
      (k = "regulados" ∨ k = "libres" ∨ k = "coes") →
      mget st.series k = some v → allZeroQ v = true →
      mget st.fallbackVenta k = some w →
      mget (finalizeEnergy st) k = some w) := by
  refine ⟨by rfl, ?_, ?_⟩
  · intro st k v hk3 hv hz
    exact finalize_keep hk3 hv hz
  · intro st k v w hk3 hv hz hw
    exact finalize_swap hk3 hv hz hw

/-- Claim C4, witness: the Sale-scoped COES series `[7]` of `scanC4` is
nonzero, so the recorded residual `[9]` is ignored. -/
theorem claim_C4_witness :
    mget (finalizeEnergy scanC4) "coes" = some [7] :=
  claim_C4.2.1 scanC4 "coes" [7] (Or.inr (Or.inr rfl)) (by rfl) (by rfl)

/-- Claim C5: `parse_number` is total by construction (every branch yields
a value); numeric input passes through unchanged (so it is idempotent on
clean floats); None, blank and NaN-like inputs give 0.0; the separator
disambiguation and dash cases give the claimed values. -/
theorem claim_C5 :
    (∀ q : ℚ, parse_number (Cell.num q) = q) ∧
    parse_number Cell.blank = 0 ∧
    parse_number Cell.nan = 0 ∧
    parse_number (Cell.str "") = 0 ∧
    parse_number (Cell.str "   ") = 0 ∧
    parse_number (Cell.str "-") = 0 ∧
    parse_number (Cell.str "1.234,56") = (1234.56 : ℚ) ∧
    parse_number (Cell.str "1,234.56") = (1234.56 : ℚ) ∧
    parse_number (Cell.str "1234,56") = (1234.56 : ℚ) :=
  ⟨fun q => rfl, by rfl, by rfl, by rfl, by decide, by decide,
   by decide, by decide, by decide⟩

/-- Claim C6, counterexample: the claim's "higher trailing digit wins among
REV variants" fails between REV1 and REV2: the `"V1" in norm` substring
test of the scorer captures the suffix of "RE V1", classifying
"2018 REV1" into the V1 class with priority 2.0, which strictly exceeds
"2018 REV2"'s REV-class priority 1.002 — the higher trailing digit
loses. -/
theorem claim_C6_counterexample :
    (score_version "2018 REV1").2.2 = "V1" ∧
    (score_version "2018 REV1").1 = 2 ∧
    (score_version "2018 REV2").1 < (score_version "2018 REV1").1 :=
  ⟨by rfl, by rfl, by decide⟩

/-- Claim C6, amended: the version scorer orders the marker classes
R2 > R1 > V1 > REV3 > REV > base on the claimed concrete titles; among REV
variants whose trailing digit actually lands in the REV class — any digit
other than 1, since "REV1" is captured by the V1 substring pattern — a
higher trailing digit wins; and the marker is recognized through
separators and parentheses ("R-2", "(R2)"). -/
theorem claim_C6 :
    ((score_version "2018-R2 (LDS)").1 > (score_version "2018-R1").1 ∧
     (score_version "2018-R1").1 > (score_version "2018 V1").1 ∧
     (score_version "2018 V1").1 > (score_version "2018 REV3").1 ∧
     (score_version "2018 REV3").1 > (score_version "2018 REV").1 ∧
     (score_version "2018 REV").1 > (score_version "2018").1) ∧
    (∀ d < 10, ∀ e < 10, d < e → d ≠ 1 →
      (score_version ("2018 REV" ++ toString d)).1 <
        (score_version ("2018 REV" ++ toString e)).1) ∧
    ((score_version "2018 R-2").1 = 4 ∧ (score_version "(R2) 2018").1 = 4) := by
  refine ⟨by decide, ?_, by decide⟩
  decide

/-- Claim C6, witness: REV5 outscores REV3. -/
theorem claim_C6_witness :
    (score_version ("2018 REV" ++ toString 3)).1 <
      (score_version ("2018 REV" ++ toString 5)).1 :=
  claim_C6.2.1 3 (by decide) 5 (by decide) (by decide) (by decide)

/-- Claim C7: `_is_better` replaces the incumbent exactly when the
candidate's priority is strictly higher, or the priorities are equal and
its revision number is ≥ the incumbent's (later-processed sheets win
ties); consequently among the sheets "2018", "2018-R1", "2018-R2 (LDS)"
the last is the sole surviving candidate for 2018. -/
theorem claim_C7 :
    (∀ c e : SheetCandidate, is_better c e = true ↔
      (c.version_priority > e.version_priority ∨
       (c.version_priority = e.version_priority ∧
        c.revision_number ≥ e.revision_number))) ∧
    ((select_candidates wbB).map (fun p => (p.1, p.2.sheet_name)) =
      [(2018, "2018-R2 (LDS)")]) := by
  constructor
  · intro c e
    by_cases h : c.version_priority = e.version_priority
    · simp [is_better, h]
    · simp [is_better, h]
  · rfl

/-- Claim C7, witness: a strictly higher priority beats a higher revision
number. -/
theorem claim_C7_witness : is_better candX candY = true :=
  (claim_C7.1 candX candY).mpr (Or.inl (by decide))

/-- Claim C8, counterexample: a column whose only cell is the number 0 is
non-blank/non-dash and parses, yet its tracked presence flag stays false —
the code additionally requires the parsed value to be NONZERO, contrary to
the claim's "regardless of the parsed numeric value". -/
theorem claim_C8_counterexample :
    (buildData [[tc "COES", nc 0]] 0 [1]).2 = [false] ∧
    rawPresent (nc 0) = true ∧ parse_number (nc 0) = 0 :=
  ⟨by rfl, by rfl, by rfl⟩

/-- Claim C8, amended: a month column's tracked presence flag is true iff
some raw cell of that column, across the table's data rows, is
non-blank/non-dash/non-NaN AND parses to a NONZERO value. -/
theorem claim_C8 (rows : List (List Cell)) (descCol : ℕ) (cols : List ℕ)
    (midx : ℕ) (hm : midx < cols.length) :
    ((buildData rows descCol cols).2.getD midx false = true ↔
      ∃ row ∈ rows,
        rawPresent (row.getD (cols.getD midx 0) Cell.blank) = true ∧
        parse_number (row.getD (cols.getD midx 0) Cell.blank) ≠ 0) := by
  rw [buildData_presence_char rows descCol cols midx hm]
  simp [colCond, Bool.and_eq_true, decide_eq_true_eq]

/-- Claim C8, witness: the amended characterization evaluated on a one-row
table with a nonzero January cell. -/
theorem claim_C8_witness :
    ((buildData [[tc "COES", nc 5]] 0 [1]).2.getD 0 false = true ↔
      ∃ row ∈ [[tc "COES", nc 5]],
        rawPresent (row.getD (([1] : List ℕ).getD 0 0) Cell.blank) = true ∧
        parse_number (row.getD (([1] : List ℕ).getD 0 0) Cell.blank) ≠ 0) :=
  claim_C8 [[tc "COES", nc 5]] 0 [1] 0 (by decide)

/-- Claim C9: every metric series of every ParseResult has exactly 12
entries — the five mandatory energy series always, and the four monetary
series whenever a sales table is present; in the aligner, a canonical
month absent from the (truncated) header month names is zero-filled for
every metric; and every canonical month lying strictly beyond every
data-bearing column (the code's last-data detection: presence flag or a
nonzero extracted value) receives exactly 0 for every metric. -/
theorem claim_C9 :
    (∀ (wb : List SheetData) (sid : String) (rs : List BalanceParseResult)
       (r : BalanceParseResult), transform wb sid = Except.ok rs → r ∈ rs →
      (r.energy.regulados.length = 12 ∧ r.energy.libres.length = 12 ∧
       r.energy.coes.length = 12 ∧ r.energy.servicios_aux.length = 12 ∧
       r.energy.perdidas.length = 12) ∧
      (∀ ss, r.sales = some ss →
        ss.regulados.length = 12 ∧ ss.libres.length = 12 ∧
        ss.coes_spot.length = 12 ∧ ss.otros.length = 12)) ∧
    (∀ (cn : List String) (pr : List Bool) (s : List (String × List ℚ))
       (keys : List String) (m : String), m ∈ MONTH_ORDER →
      m ∉ activeNamesOf cn pr s →
      ∀ p ∈ (truncAlign cn pr s keys).series,
        p.2.getD (MONTH_ORDER.indexOf m) 0 = 0) ∧
    (∀ (cn : List String) (pr : List Bool) (s : List (String × List ℚ))
       (keys : List String) (m : String), m ∈ MONTH_ORDER →
      (∀ j, j < cn.length → isDataCol s pr j = true →
        MONTH_ORDER.indexOf (cn.getD j "") < MONTH_ORDER.indexOf m) →
      ∀ p ∈ (truncAlign cn pr s keys).series,
        p.2.getD (MONTH_ORDER.indexOf m) 0 = 0) := by
  refine ⟨?_, ?_, ?_⟩
  · intro wb sid rs r hok hr
    obtain ⟨p, _, hp⟩ := transform_mem hok hr
    obtain ⟨_, _, _, _, hlen, hslen⟩ := parse_sheet_ok_inv hp
    exact ⟨hlen, hslen⟩
  · intro cn pr s keys m hm habs
    exact truncAlign_absent_zero m hm habs
  · intro cn pr s keys m hm H
    exact truncAlign_beyond_zero m hm H

/-- Claim C9, witness: with data only in January, March's aligned entry is
zero. -/
theorem claim_C9_witness :
    ∀ p ∈ (truncAlign ["Ene", "Feb", "Mar"] [true, false, false]
        [("coes", [5, 0, 0])] ["coes"]).series,
      p.2.getD (MONTH_ORDER.indexOf "Mar") 0 = 0 :=
  claim_C9.2.2 ["Ene", "Feb", "Mar"] [true, false, false] [("coes", [5, 0, 0])]
    ["coes"] "Mar" (by decide) (by decide)

/-- Claim C10: every ParseResult returned by `transform` has a non-empty
`observed_months` and a present `last_month`; concretely, when no month
column registers presence (an all-dash table), `observed_months` falls
back to the full canonical 12-month list and `last_month` becomes
"Dic". -/
theorem claim_C10 :
    (∀ (wb : List SheetData) (sid : String) (rs : List BalanceParseResult)
       (r : BalanceParseResult), transform wb sid = Except.ok rs → r ∈ rs →
      r.observed_months ≠ [] ∧ r.last_month.isSome = true) ∧
    ((transform wbC10 DEFAULT_SOURCE_ID).toOption.map
        (List.map (fun r => (r.observed_months, r.last_month))) =
      some [(MONTH_ORDER, some "Dic")]) := by
  constructor
  · intro wb sid rs r hok hr
    obtain ⟨p, _, hp⟩ := transform_mem hok hr
    obtain ⟨_, h2, _, h4, _, _⟩ := parse_sheet_ok_inv hp
    refine ⟨h2, ?_⟩
    rw [h4]
    exact List.getLast?_isSome.mpr h2
  · rfl

/-- Claim C10, witness: the general part applied to the full-year
workbook. -/
theorem claim_C10_witness :
    rFull.observed_months ≠ [] ∧ rFull.last_month.isSome = true :=
  claim_C10.1 wbFull DEFAULT_SOURCE_ID [rFull] rFull (by rfl) (by simp)

end BalanceTransformerModel
